import Mathlib

/-!
QT_PADS_KVM: input translation and hardware reconciliation.

A shallow embedding of

* `Controller/pro_hidcontroller.cpp` (`HidController`: local pointer events to
  HID commands, the polled long-press detector),
* `Controller/pro_videothread.cpp` (`VideoController`: the dirty-bit
  reconciliation pass and the parser of inbound network messages),
* `Driver/drv_camera.cpp` (`CameraDevice`: capture negotiation),

followed by theorems about them.

Conventions.  A C++ `int` is an `Int` that is brought back into the 32-bit range
by `wrapInt32` after every arithmetic operation of the source; `long long`
intermediates are wide enough for every value that reaches them here (a product
of a 32-bit value and 4095) and are left unwrapped.  Bytes are `Fin 256`.
Millisecond readings of the 64-bit `QElapsedTimer` are plain `Int`s.
Calls on collaborators whose code is outside the sources (the command queue,
the serial driver, the V4L2 device) appear as explicit inputs and outputs of the
functions: the list of commands pushed, the list of driver calls made, the
answers of the device.
-/

namespace QtPadsKvm

/-! ## Machine integers and Qt helpers -/

/-- Two's-complement reduction of an integer to the range of a C++ `int`. -/
def wrapInt32 (z : Int) : Int := (z + 2147483648) % 4294967296 - 2147483648

/-- Two's-complement reduction to `int8_t`, the cast `(int8_t)b`. -/
def wrapInt8 (z : Int) : Int := (z + 128) % 256 - 128

/-- Qt's `qBound(min, val, max)`, which is `qMax(min, qMin(max, val))`. -/
def qBound (lo v hi : Int) : Int := max lo (min hi v)

/-- Qt's `qAbs` on `int`. -/
def qAbs (v : Int) : Int := if v ≥ 0 then v else wrapInt32 (-v)

/-- A `QPoint`. -/
structure QPoint where
  x : Int
  y : Int
  deriving DecidableEq, Repr

/-- `QPoint::operator-`, componentwise on `int`. -/
def QPoint.sub (a b : QPoint) : QPoint :=
  { x := wrapInt32 (a.x - b.x), y := wrapInt32 (a.y - b.y) }

/-- `QPoint::manhattanLength`: `qAbs(x) + qAbs(y)`. -/
def QPoint.manhattanLength (p : QPoint) : Int := wrapInt32 (qAbs p.x + qAbs p.y)

/-- A `QSize`. -/
structure QSize where
  width : Int
  height : Int
  deriving DecidableEq, Repr

/-- `QSize::isEmpty`: a dimension below one. -/
def QSize.isEmpty (s : QSize) : Bool := decide (s.width < 1) || decide (s.height < 1)

/-- A `QRect` as built by `QRect(x, y, w, h)`. -/
structure QRect where
  x : Int
  y : Int
  width : Int
  height : Int
  deriving DecidableEq, Repr

/-- `QRect::isEmpty`: `left > right || top > bottom`, that is a width or height
below one. -/
def QRect.isEmpty (r : QRect) : Bool := decide (r.width < 1) || decide (r.height < 1)

/-! ## HID commands -/

/-- The discriminator `HidCommand::type`. -/
inductive CmdType where
  | CMD_MOUSE_ABS
  | CMD_MOUSE_REL
  | CMD_KEYBOARD
  deriving DecidableEq, Repr

/-- A `HidCommand`: the kind and four integer parameters. -/
structure HidCommand where
  type : CmdType
  param1 : Int
  param2 : Int
  param3 : Int
  param4 : Int
  deriving DecidableEq, Repr

/-- The calls `onMainLoop` makes on the serial driver (`CH9329Driver`). -/
inductive DriverCall where
  | sendMouseAbs (x y buttons wheel : Int)
  | sendMouseRel (dx dy buttons wheel : Int)
  | sendKbPacket (mods key : Int)
  | clickMouse (button : Int)
  deriving DecidableEq, Repr

def MOUSE_LEFT : Int := 1
def MOUSE_RIGHT : Int := 2
def MOUSE_MIDDLE : Int := 4

/-! ## Local events -/

/-- The translation strategy `HidControlMode`. -/
inductive HidControlMode where
  | MODE_NONE
  | MODE_ABSOLUTE
  | MODE_RELATIVE
  deriving DecidableEq, Repr

/-- The `QEvent::Type` values the controller distinguishes. -/
inductive EventType where
  | MouseButtonPress
  | MouseButtonRelease
  | MouseMove
  | Wheel
  | KeyPress
  | KeyRelease
  | Resize
  | Other
  deriving DecidableEq, Repr

/-- The button that caused a mouse event, `QMouseEvent::button()`. -/
inductive MouseButton where
  | NoButton
  | LeftButton
  | RightButton
  | MiddleButton
  | OtherButton
  deriving DecidableEq, Repr

/-- What `parseLocalMouse` reads from a `QMouseEvent`: the widget position, the
global position, the causing button and the bit set of held buttons
(`Qt::LeftButton = 1`, `Qt::RightButton = 2`, `Qt::MiddleButton = 4`). -/
structure QMouseEvent where
  pos : QPoint
  globalPos : QPoint
  button : MouseButton
  buttons : Nat
  deriving DecidableEq, Repr

/-- The static helper `getHidButtonState`: held Qt buttons to the CH9329 byte. -/
def getHidButtonState (buttons : Nat) : Int :=
  let b0 : Nat := 0
  let b1 := if buttons &&& 1 ≠ 0 then b0 ||| 1 else b0
  let b2 := if buttons &&& 2 ≠ 0 then b1 ||| 2 else b1
  let b3 := if buttons &&& 4 ≠ 0 then b2 ||| 4 else b2
  (b3 : Int)

/-- The fields of `HidController` read or written by the pointer path and the
main loop.  `m_driver` records whether the driver pointer is non-null;
`lastPos` is the function-local `static QPoint lastPos` of `parseLocalMouse`,
`none` until its initialiser has run. -/
structure HidController where
  m_driver : Bool
  m_currentMode : HidControlMode
  m_sourceSize : QSize
  m_widgetSize : QSize
  m_displayRect : QRect
  m_isLeftButtonDown : Bool
  m_longPressHandled : Bool
  m_hasMovedSignificantly : Bool
  m_pressStartTime : Int
  m_pressStartPos : QPoint
  lastPos : Option QPoint
  deriving DecidableEq, Repr

/-- The absolute-mode scaling of one axis:
`(int)((long long)qBound(0, real, dim) * 4095 / dim)` when `dim > 0`, else the
initial `0`. -/
def absAxis (pos origin dim : Int) : Int :=
  let real := wrapInt32 (pos - origin)
  if dim > 0 then wrapInt32 (Int.tdiv (qBound 0 real dim * 4095) dim) else 0

/-- `HidController::parseLocalMouse`.  `now` is the reading of
`m_elapsedTimer.elapsed()`; the result is the new state and the commands handed
to `HidPacketQueue::push`, in order. -/
def parseLocalMouse (now : Int) (e : QMouseEvent) (type : EventType)
    (s : HidController) : HidController × List HidCommand :=
  match s.m_currentMode with
  | .MODE_ABSOLUTE =>
    if s.m_displayRect.isEmpty then (s, [])
    else
      let hidX := absAxis e.pos.x s.m_displayRect.x s.m_displayRect.width
      let hidY := absAxis e.pos.y s.m_displayRect.y s.m_displayRect.height
      (s, [{ type := .CMD_MOUSE_ABS, param1 := hidX, param2 := hidY,
             param3 := getHidButtonState e.buttons, param4 := 0 }])
  | .MODE_RELATIVE =>
    if type = .MouseButtonPress ∧ e.button = .LeftButton then
      ({ s with m_isLeftButtonDown := true, m_pressStartTime := now,
                m_pressStartPos := e.globalPos, m_longPressHandled := false,
                m_hasMovedSignificantly := false }, [])
    else if type = .MouseMove then
      let last := s.lastPos.getD e.globalPos
      let dx := wrapInt32 (e.globalPos.x - last.x)
      let dy := wrapInt32 (e.globalPos.y - last.y)
      let moved :=
        if (e.globalPos.sub s.m_pressStartPos).manhattanLength > 5 then true
        else s.m_hasMovedSignificantly
      ({ s with lastPos := some e.globalPos, m_hasMovedSignificantly := moved },
       [{ type := .CMD_MOUSE_REL, param1 := qBound (-127) dx 127,
          param2 := qBound (-127) dy 127, param3 := 0, param4 := 0 }])
    else if type = .MouseButtonRelease ∧ e.button = .LeftButton then
      let s1 := { s with m_isLeftButtonDown := false }
      if !s.m_longPressHandled && !s.m_hasMovedSignificantly then
        (s1, [{ type := .CMD_MOUSE_REL, param1 := 0, param2 := 0,
                param3 := MOUSE_LEFT, param4 := 0 },
              { type := .CMD_MOUSE_REL, param1 := 0, param2 := 0,
                param3 := 0, param4 := 0 }])
      else (s1, [])
    else (s, [])
  | .MODE_NONE => (s, [])

/-- What the drain loop of `onMainLoop` does with one popped command. -/
def dispatch (cmd : HidCommand) : DriverCall :=
  match cmd.type with
  | .CMD_MOUSE_ABS => .sendMouseAbs cmd.param1 cmd.param2 cmd.param3 cmd.param4
  | .CMD_MOUSE_REL => .sendMouseRel cmd.param1 cmd.param2 cmd.param3 cmd.param4
  | .CMD_KEYBOARD => .sendKbPacket cmd.param1 cmd.param2

/-- `HidController::onMainLoop`.  `popped` is what the `pop` loop takes from the
queue during this poll and `now` the reading of `m_elapsedTimer.elapsed()`.
The result is the new state and the calls made on the driver, in order; `none`
stands for the dereference of a null `m_driver` at `clickMouse`. -/
def onMainLoop (popped : List HidCommand) (now : Int) (s : HidController) :
    Option (HidController × List DriverCall) :=
  let sent := if s.m_driver then popped.map dispatch else []
  if s.m_currentMode = .MODE_RELATIVE ∧ s.m_isLeftButtonDown = true
      ∧ s.m_longPressHandled = false then
    if s.m_hasMovedSignificantly then
      some ({ s with m_longPressHandled := true }, sent)
    else if now - s.m_pressStartTime > 500 then
      if s.m_driver then
        some ({ s with m_longPressHandled := true },
              sent ++ [DriverCall.clickMouse MOUSE_RIGHT])
      else none
    else some (s, sent)
  else some (s, sent)

/-- One stimulus of the controller: a pointer event handed to
`parseLocalMouse`, or a tick of the 10 ms timer running `onMainLoop`. -/
inductive Input where
  | mouse (now : Int) (e : QMouseEvent) (type : EventType)
  | poll (now : Int) (popped : List HidCommand)
  deriving DecidableEq, Repr

/-- The controller's reaction to one stimulus: new state, commands pushed,
driver calls made. -/
def step (s : HidController) :
    Input → Option (HidController × List HidCommand × List DriverCall)
  | .mouse now e type =>
    let r := parseLocalMouse now e type s
    some (r.1, r.2, [])
  | .poll now popped =>
    match onMainLoop popped now s with
    | some r => some (r.1, [], r.2)
    | none => none

/-- The controller's reaction to a sequence of stimuli, outputs concatenated. -/
def run (s : HidController) :
    List Input → Option (HidController × List HidCommand × List DriverCall)
  | [] => some (s, [], [])
  | i :: rest =>
    match step s i with
    | none => none
    | some (s1, p1, d1) =>
      match run s1 rest with
      | none => none
      | some (s2, p2, d2) => some (s2, p1 ++ p2, d1 ++ d2)

/-- Number of right-clicks (`clickMouse(MOUSE_RIGHT)`) among driver calls. -/
def rightClicks (calls : List DriverCall) : Nat :=
  calls.count (DriverCall.clickMouse MOUSE_RIGHT)

/-- Manhattan distance of two points in exact integers. -/
def manhattan (a b : QPoint) : Nat := (a.x - b.x).natAbs + (a.y - b.y).natAbs

/-- A pointer event that is a press of the left button. -/
def isLeftPress (e : QMouseEvent) (type : EventType) : Bool :=
  decide (type = .MouseButtonPress) && decide (e.button = .LeftButton)

/-- A pointer event that is a release of the left button. -/
def isLeftRelease (e : QMouseEvent) (type : EventType) : Bool :=
  decide (type = .MouseButtonRelease) && decide (e.button = .LeftButton)

/-- A stimulus that leaves a press at `origin` a long-press candidate: any
poll, and any pointer event that is not a left press, not a left release and
not a move farther than Manhattan distance 5 from `origin`. -/
def Input.quiet (origin : QPoint) : Input → Bool
  | .poll _ _ => true
  | .mouse _ e type =>
    !isLeftPress e type && !isLeftRelease e type
      && (decide (type ≠ .MouseMove) || decide (manhattan e.globalPos origin ≤ 5))

/-- A poll that reads a time later than `t`. -/
def Input.pollAfter (t : Int) : Input → Bool
  | .poll now _ => decide (now > t)
  | .mouse _ _ _ => false

/-- A stimulus other than a press of the left button. -/
def Input.noLeftPress : Input → Bool
  | .poll _ _ => true
  | .mouse _ e type => !isLeftPress e type

/-- The state left by the constructor `HidController::HidController`:
driver created, source size 1920x1080, default-constructed widget size and
display rectangle, mode `MODE_NONE`, gesture flags cleared.  The members the
constructor does not assign (`m_pressStartTime`) are given the value 0. -/
def HidController.init : HidController :=
  { m_driver := true, m_currentMode := .MODE_NONE,
    m_sourceSize := { width := 1920, height := 1080 },
    m_widgetSize := { width := -1, height := -1 },
    m_displayRect := { x := 0, y := 0, width := 0, height := 0 },
    m_isLeftButtonDown := false, m_longPressHandled := false,
    m_hasMovedSignificantly := false, m_pressStartTime := 0,
    m_pressStartPos := { x := 0, y := 0 }, lastPos := none }

/-- `HidController::setControlMode`. -/
def HidController.setControlMode (mode : HidControlMode) (s : HidController) :
    HidController :=
  { s with m_currentMode := mode }

/-- Gesture state of a pending press: relative mode, driver present, left
button down since `t0` at `origin`, neither moved significantly nor handled. -/
def Armed (t0 : Int) (origin : QPoint) (s : HidController) : Prop :=
  s.m_driver = true ∧ s.m_currentMode = .MODE_RELATIVE
    ∧ s.m_isLeftButtonDown = true ∧ s.m_longPressHandled = false
    ∧ s.m_hasMovedSignificantly = false
    ∧ s.m_pressStartTime = t0 ∧ s.m_pressStartPos = origin

/-- Gesture state of a press whose long-press decision is taken: relative
mode, driver present, and the press is handled or has moved significantly. -/
def Settled (s : HidController) : Prop :=
  s.m_driver = true ∧ s.m_currentMode = .MODE_RELATIVE
    ∧ (s.m_longPressHandled = true ∨ s.m_hasMovedSignificantly = true)

/-- A freshly constructed controller switched to relative (touch) mode. -/
def relativeController : HidController :=
  HidController.init.setControlMode .MODE_RELATIVE

/-- A pointer event of the left button at global position `(x, y)`. -/
def leftButtonAt (x y : Int) : QMouseEvent :=
  { pos := { x := x, y := y }, globalPos := { x := x, y := y },
    button := .LeftButton, buttons := 1 }

/-- A pointer move (no causing button) to global position `(x, y)`. -/
def moveTo (x y : Int) : QMouseEvent :=
  { pos := { x := x, y := y }, globalPos := { x := x, y := y },
    button := .NoButton, buttons := 1 }

/-- The first command of a synthesised click: left button down, no motion. -/
def clickDown : HidCommand :=
  { type := .CMD_MOUSE_REL, param1 := 0, param2 := 0, param3 := 1, param4 := 0 }

/-- The second command of a synthesised click: all buttons up, no motion. -/
def clickUp : HidCommand :=
  { type := .CMD_MOUSE_REL, param1 := 0, param2 := 0, param3 := 0, param4 := 0 }

/-- A held press: polls at 1200, 1501 and 1600 ms around a small move. -/
def holdInputs : List Input :=
  [Input.poll 1200 [], Input.mouse 1300 (moveTo 102 101) .MouseMove,
   Input.poll 1501 [clickUp], Input.poll 1600 []]

/-- A short tap: one poll and one small move within 500 ms of the press. -/
def tapInputs : List Input :=
  [Input.poll 1200 [], Input.mouse 1300 (moveTo 102 101) .MouseMove, Input.poll 1400 []]

/-- What follows the start of a drag: more moves and late polls. -/
def dragInputs : List Input :=
  [Input.poll 1700 [], Input.mouse 1800 (moveTo 300 300) .MouseMove, Input.poll 5000 []]

/-! ## Inbound network messages (`VideoController::run`, step 3) -/

/-- One byte of a network message. -/
abbrev Byte := Fin 256

/-- The body of the `for (const auto& msg : msgs)` loop of
`VideoController::run`: the commands pushed for one inbound message. -/
def parseNetMessage (msg : List Byte) : List HidCommand :=
  if msg.isEmpty then []
  else
    let type : Nat := (msg.getD 0 0).val
    if type = 0x02 ∧ msg.length ≥ 7 then
      let buttons : Nat := (msg.getD 1 0).val
      let x_web : Nat := ((msg.getD 2 0).val ||| ((msg.getD 3 0).val <<< 8)) % 65536
      let y_web : Nat := ((msg.getD 4 0).val ||| ((msg.getD 5 0).val <<< 8)) % 65536
      let wheel : Int := if msg.length > 6 then wrapInt8 (msg.getD 6 0).val else 0
      let x_hid := wrapInt32 (Int.tdiv ((x_web : Int) * 4095) 32767)
      let y_hid := wrapInt32 (Int.tdiv ((y_web : Int) * 4095) 32767)
      [{ type := .CMD_MOUSE_ABS, param1 := x_hid, param2 := y_hid,
         param3 := buttons, param4 := wheel }]
    else if type = 0x01 ∧ msg.length ≥ 3 then
      [{ type := .CMD_KEYBOARD, param1 := (msg.getD 1 0).val,
         param2 := (msg.getD 2 0).val, param3 := 0, param4 := 0 }]
    else []

/-- The whole receive loop: every message of the batch, in order. -/
def parseNetMessages (msgs : List (List Byte)) : List HidCommand :=
  msgs.flatMap parseNetMessage

/-! ## The capture device (`drv_camera.cpp`) -/

/-- `V4L2_PIX_FMT_YUYV`, `v4l2_fourcc('Y','U','Y','V')`. -/
def V4L2_PIX_FMT_YUYV : Nat := 0x56595559

/-- `V4L2_PIX_FMT_MJPEG`, `v4l2_fourcc('M','J','P','G')`. -/
def V4L2_PIX_FMT_MJPEG : Nat := 0x47504A4D

/-- The answers of the V4L2 device to the requests of one `startCapturing`.
`sFmt w h f` is the size the driver writes back on `VIDIOC_S_FMT` (`none`: the
request fails); `reqbufs n` is the buffer count granted on `VIDIOC_REQBUFS`;
the remaining fields say whether the request succeeds. -/
structure V4l2Device where
  sFmt : Int → Int → Nat → Option (Int × Int)
  sParm : Int → Bool
  reqbufs : Nat → Option Nat
  querybuf : Nat → Bool
  mmapOk : Nat → Bool
  qbuf : Nat → Bool
  streamOn : Bool

/-- One entry of `m_buffers`: whether its `mmap` produced a mapping. -/
structure VideoBuffer where
  mapped : Bool
  deriving DecidableEq, Repr

/-- The fields of `CameraDevice`.  `m_buffers` is `none` for a null pointer;
`m_rgbBuffer` is represented by its size. -/
structure CameraDevice where
  m_fd : Int
  m_isCapturing : Bool
  m_width : Int
  m_height : Int
  m_pixelFormat : Nat
  m_buffers : Option (List VideoBuffer)
  m_nBuffers : Nat
  m_rgbBuffer : Int
  deriving DecidableEq, Repr

/-- `CameraDevice::isCapturing`. -/
def CameraDevice.isCapturing (c : CameraDevice) : Bool := c.m_isCapturing

/-- Modelled from the spec: `CameraDevice::getPixelFormat` is declared in
`drv_camera.h`, which is not among the sources; the encoder is built "only
for a recognized pixel format" of the capture, so the accessor returns the
stored `m_pixelFormat`. -/
def CameraDevice.getPixelFormat (c : CameraDevice) : Nat := c.m_pixelFormat

/-- `CameraDevice::stopCapturing`. -/
def CameraDevice.stopCapturing (c : CameraDevice) : CameraDevice :=
  if !c.m_isCapturing then c
  else { c with m_buffers := none, m_nBuffers := 0, m_isCapturing := false }

/-- `CameraDevice::initMmap`: the entries written for buffers `0 .. n-1`; the
results of `VIDIOC_QUERYBUF` and `VIDIOC_QBUF` are not looked at. -/
def initMmap (dev : V4l2Device) (n : Nat) : List VideoBuffer :=
  (List.range n).map fun i => { mapped := dev.mmapOk i }

/-- `CameraDevice::startCapturing`: the device afterwards and the returned
flag. -/
def CameraDevice.startCapturing (dev : V4l2Device) (width height : Int)
    (pixelFormat : Nat) (fps : Int) (c : CameraDevice) : CameraDevice × Bool :=
  if c.m_fd < 0 then (c, false)
  else
    let c0 := c.stopCapturing
    match dev.sFmt width height pixelFormat with
    | none => (c0, false)
    | some (w, h) =>
      let c1 := { c0 with m_width := w, m_height := h, m_pixelFormat := pixelFormat }
      let _ := dev.sParm fps
      match dev.reqbufs 4 with
      | none => (c1, false)
      | some count =>
        let c2 := { c1 with m_buffers := some (initMmap dev count), m_nBuffers := count }
        if !dev.streamOn then (c2, false)
        else
          let c3 :=
            if c2.m_pixelFormat = V4L2_PIX_FMT_YUYV then
              { c2 with m_rgbBuffer := wrapInt32 (wrapInt32 (c2.m_width * c2.m_height) * 3) }
            else c2
          ({ c3 with m_isCapturing := true }, true)

/-! ## The reconciliation pass (`pro_videothread.cpp`) -/

/-- A `VideoEncoder` as constructed: `width_`, `height_`, `bitrate_`. -/
structure VideoEncoder where
  width : Int
  height : Int
  bitrate : Int
  deriving DecidableEq, Repr

/-- A `WebServer` as constructed: the port it was created for. -/
structure WebServer where
  port : Int
  deriving DecidableEq, Repr

/-- The resource operations of one reconciliation pass, in program order. -/
inductive HwOp where
  | cameraStop
  | cameraStart (width height : Int) (fmt : Nat) (fps : Int) (ok : Bool)
  | deleteEncoder (e : VideoEncoder)
  | newEncoder (e : VideoEncoder)
  | initEncoder
  | newServer (s : WebServer)
  | deleteServer (s : WebServer)
  deriving DecidableEq, Repr

/-- The fields of `VideoController`.  `m_camera` is created by the constructor
and never reset, so it is always present. -/
structure VideoController where
  m_abort : Bool
  m_pause : Bool
  m_dirtyCamera : Bool
  m_dirtyNetwork : Bool
  m_cfgWidth : Int
  m_cfgHeight : Int
  m_cfgFmt : Nat
  m_cfgFps : Int
  m_cfgNetOn : Bool
  m_cfgPort : Int
  m_encoder : Option VideoEncoder
  m_server : Option WebServer
  m_camera : CameraDevice
  deriving DecidableEq, Repr

/-- The `int bitrate` of a new encoder: `targetW * targetH * 2`, raised to
400000 when below. -/
def encoderBitrate (targetW targetH : Int) : Int :=
  let bitrate := wrapInt32 (wrapInt32 (targetW * targetH) * 2)
  if bitrate < 400000 then 400000 else bitrate

/-- Part A of step 3 of `syncHardwareState`: the old encoder is deleted. -/
def dropEncoder (v : VideoController) : VideoController × List HwOp :=
  match v.m_encoder with
  | some e => ({ v with m_encoder := none }, [HwOp.deleteEncoder e])
  | none => (v, [])

/-- The branch `if (!m_server) m_server = new WebServer(targetPort)`. -/
def ensureServer (targetPort : Int) (v : VideoController) : VideoController × List HwOp :=
  match v.m_server with
  | none => ({ v with m_server := some { port := targetPort } },
             [HwOp.newServer { port := targetPort }])
  | some _ => (v, [])

/-- The branch `if (m_server) { delete m_server; m_server = nullptr; }`. -/
def dropServer (v : VideoController) : VideoController × List HwOp :=
  match v.m_server with
  | some srv => ({ v with m_server := none }, [HwOp.deleteServer srv])
  | none => (v, [])

/-- The branch that rebuilds the encoder when the capture format is YUYV. -/
def rebuildEncoder (targetW targetH : Int) (v : VideoController) :
    VideoController × List HwOp :=
  if v.m_camera.getPixelFormat = V4L2_PIX_FMT_YUYV then
    ({ v with m_encoder := some { width := targetW, height := targetH,
                                  bitrate := encoderBitrate targetW targetH } },
     [HwOp.newEncoder { width := targetW, height := targetH,
                        bitrate := encoderBitrate targetW targetH },
      HwOp.initEncoder])
  else (v, [])

/-- Step 3 of `syncHardwareState`, entered when `needNetReset` holds. -/
def syncNetwork (targetW targetH : Int) (targetNetOn : Bool) (targetPort : Int)
    (v : VideoController) : VideoController × List HwOp :=
  let a := dropEncoder v
  if targetNetOn then
    let b := ensureServer targetPort a.1
    let c := rebuildEncoder targetW targetH b.1
    (c.1, a.2 ++ b.2 ++ c.2)
  else
    let b := dropServer a.1
    (b.1, a.2 ++ b.2)

/-- `VideoController::syncHardwareState`: the controller afterwards and the
resource operations performed.  `dev` answers the requests of the capture
restart. -/
def syncHardwareState (dev : V4l2Device) (v : VideoController) :
    VideoController × List HwOp :=
  let needCamReset := v.m_dirtyCamera
  let needNetReset := v.m_dirtyNetwork
  let targetW := v.m_cfgWidth
  let targetH := v.m_cfgHeight
  let targetFmt := v.m_cfgFmt
  let targetFps := v.m_cfgFps
  let targetNetOn := v.m_cfgNetOn
  let targetPort := v.m_cfgPort
  let v0 := { v with m_dirtyCamera := false, m_dirtyNetwork := false }
  if needCamReset then
    let started :=
      v0.m_camera.stopCapturing.startCapturing dev targetW targetH targetFmt targetFps
    let ops :=
      [HwOp.cameraStop, HwOp.cameraStart targetW targetH targetFmt targetFps started.2]
    if !started.2 then
      ({ v0 with m_camera := started.1, m_pause := true }, ops)
    else
      let r := syncNetwork targetW targetH targetNetOn targetPort
        { v0 with m_camera := started.1 }
      (r.1, ops ++ r.2)
  else if needNetReset then
    syncNetwork targetW targetH targetNetOn targetPort v0
  else (v0, [])

/-- The state left by the constructor `CameraDevice::CameraDevice`; the members
it does not assign are given the value 0. -/
def CameraDevice.init : CameraDevice :=
  { m_fd := -1, m_isCapturing := false, m_width := 0, m_height := 0,
    m_pixelFormat := 0, m_buffers := none, m_nBuffers := 0, m_rgbBuffer := 0 }

/-- `CameraDevice::openDevice`, `fd` being the result of `::open`. -/
def CameraDevice.openDevice (fd : Int) (c : CameraDevice) : CameraDevice × Bool :=
  let c0 := { c.stopCapturing with m_fd := -1 }
  if fd < 0 then ({ c0 with m_fd := fd }, false) else ({ c0 with m_fd := fd }, true)

/-- The state left by the constructor `VideoController::VideoController`. -/
def VideoController.init : VideoController :=
  { m_abort := false, m_pause := true, m_dirtyCamera := false, m_dirtyNetwork := false,
    m_cfgWidth := 640, m_cfgHeight := 480, m_cfgFmt := 0, m_cfgFps := 30,
    m_cfgNetOn := false, m_cfgPort := 8080, m_encoder := none, m_server := none,
    m_camera := CameraDevice.init }

/-- `VideoController::updateSettings`. -/
def VideoController.updateSettings (width height : Int) (fmt : Nat) (fps : Int)
    (v : VideoController) : VideoController :=
  { v with m_cfgWidth := width, m_cfgHeight := height, m_cfgFmt := fmt, m_cfgFps := fps,
           m_dirtyCamera := true, m_pause := false }

/-- `VideoController::startServer`. -/
def VideoController.startServer (port : Int) (v : VideoController) : VideoController :=
  { v with m_cfgNetOn := true, m_cfgPort := port, m_dirtyNetwork := true }

/-- `VideoController::stopServer`. -/
def VideoController.stopServer (v : VideoController) : VideoController :=
  { v with m_cfgNetOn := false, m_dirtyNetwork := true }

/-- A capture device that grants every request exactly as asked. -/
def exactDevice : V4l2Device :=
  { sFmt := fun w h _ => some (w, h), sParm := fun _ => true,
    reqbufs := fun n => some n, querybuf := fun _ => true, mmapOk := fun _ => true,
    qbuf := fun _ => true, streamOn := true }

/-- A capture device whose driver adjusts every requested size to 320x240 and
grants everything else. -/
def shrinkingDevice : V4l2Device :=
  { exactDevice with sFmt := fun _ _ _ => some (320, 240) }

/-- A worker with an opened capture device (descriptor 3), as after
`openDevice` on a fresh `VideoController`. -/
def openedController : VideoController :=
  { VideoController.init with m_camera := (CameraDevice.init.openDevice 3).1 }

/-- A worker that streams 640x480 over port 8080 and has just been asked, by
`updateSettings` alone, to capture 1280x720 YUYV. -/
def resizedController : VideoController :=
  ({ openedController with
      m_cfgNetOn := true, m_encoder := some { width := 640, height := 480, bitrate := 614400 },
      m_server := some { port := 8080 } }).updateSettings 1280 720 V4L2_PIX_FMT_YUYV 30

/-- A worker asked to capture 640x480 YUYV and to serve port 8080. -/
def requestedController : VideoController :=
  (openedController.updateSettings 640 480 V4L2_PIX_FMT_YUYV 30).startServer 8080

/-! ## One iteration of the worker loop (`VideoController::run`, steps 2 to 4) -/

/-- What the collaborators answer during one loop iteration: the capture
device on a restart, the messages returned by `process_client_messages`, the
value of `GetClientNumber` and the answer to `VIDIOC_DQBUF` (buffer index and
bytes used, `none` when the request fails). -/
structure LoopEnv where
  dev : V4l2Device
  msgs : List (List Byte)
  clients : Int
  dqbuf : Option (Nat × Nat)

/-- The observable operations of one loop iteration, in program order. -/
inductive LoopOp where
  | hw (op : HwOp)
  | handleNewConnections
  | push (cmd : HidCommand)
  | dequeued (index : Int)
  | dequeueFailed
  | frameReady
  | encode (enc : VideoEncoder)
  | qbuf (index : Int)
  | msleep (ms : Nat)
  deriving DecidableEq, Repr

/-- `CameraDevice::dequeue`: index and length of the buffer obtained, `none`
for a null result. -/
def CameraDevice.dequeue (c : CameraDevice) (dqbuf : Option (Nat × Nat)) :
    Option (Int × Nat) :=
  if !c.m_isCapturing || c.m_buffers.isNone || decide (c.m_fd < 0) then none
  else
    match dqbuf with
    | none => none
    | some (index, bytesused) => some ((index : Int), bytesused)

/-- `CameraDevice::enqueue`: the `VIDIOC_QBUF` requests it issues. -/
def CameraDevice.enqueue (c : CameraDevice) (index : Int) : List LoopOp :=
  if c.m_fd < 0 ∨ index < 0 then [] else [LoopOp.qbuf index]

/-- Step 3 of the loop: network receive and parsing. -/
def networkStep (env : LoopEnv) (v : VideoController) : List LoopOp :=
  match v.m_server with
  | some _ => LoopOp.handleNewConnections :: (parseNetMessages env.msgs).map LoopOp.push
  | none => []

/-- Step 4 of the loop: capture and fan-out. -/
def captureStep (env : LoopEnv) (v : VideoController) : List LoopOp :=
  if v.m_camera.isCapturing then
    match v.m_camera.dequeue env.dqbuf with
    | some (index, _) =>
      let enc : List LoopOp :=
        match v.m_encoder, v.m_server with
        | some e, some _ => if env.clients > 0 then [LoopOp.encode e] else []
        | _, _ => []
      [LoopOp.dequeued index, LoopOp.frameReady] ++ enc ++ v.m_camera.enqueue index
    | none => [LoopOp.dequeueFailed]
  else [LoopOp.msleep 10]

/-- Steps 2, 3 and 4 of one iteration of `VideoController::run`. -/
def runIteration (env : LoopEnv) (v : VideoController) : VideoController × List LoopOp :=
  let r := syncHardwareState env.dev v
  (r.1, r.2.map LoopOp.hw ++ networkStep env r.1 ++ captureStep env r.1)

/-! ## The keyboard path (`pro_hidcontroller.cpp`) -/

/-- What `parseLocalKey` reads from a `QKeyEvent`: `key()`, `modifiers()` as
the bit set of `Qt::KeyboardModifier` flags, and `isAutoRepeat()`. -/
structure QKeyEvent where
  key : Int
  modifiers : Nat
  isAutoRepeat : Bool
  deriving DecidableEq, Repr

namespace Qt

def ShiftModifier : Nat := 0x02000000
def ControlModifier : Nat := 0x04000000
def AltModifier : Nat := 0x08000000
def MetaModifier : Nat := 0x10000000

def Key_Escape : Int := 0x01000000
def Key_Tab : Int := 0x01000001
def Key_Backspace : Int := 0x01000003
def Key_Return : Int := 0x01000004
def Key_Enter : Int := 0x01000005
def Key_Insert : Int := 0x01000006
def Key_Delete : Int := 0x01000007
def Key_Pause : Int := 0x01000008
def Key_Print : Int := 0x01000009
def Key_Home : Int := 0x01000010
def Key_End : Int := 0x01000011
def Key_Left : Int := 0x01000012
def Key_Up : Int := 0x01000013
def Key_Right : Int := 0x01000014
def Key_Down : Int := 0x01000015
def Key_PageUp : Int := 0x01000016
def Key_PageDown : Int := 0x01000017
def Key_CapsLock : Int := 0x01000024
def Key_NumLock : Int := 0x01000025
def Key_ScrollLock : Int := 0x01000026
def Key_F1 : Int := 0x01000030
def Key_F2 : Int := 0x01000031
def Key_F3 : Int := 0x01000032
def Key_F4 : Int := 0x01000033
def Key_F5 : Int := 0x01000034
def Key_F6 : Int := 0x01000035
def Key_F7 : Int := 0x01000036
def Key_F8 : Int := 0x01000037
def Key_F9 : Int := 0x01000038
def Key_F10 : Int := 0x01000039
def Key_F11 : Int := 0x0100003a
def Key_F12 : Int := 0x0100003b
def Key_Space : Int := 0x20
def Key_Exclam : Int := 0x21
def Key_QuoteDbl : Int := 0x22
def Key_NumberSign : Int := 0x23
def Key_Dollar : Int := 0x24
def Key_Percent : Int := 0x25
def Key_Ampersand : Int := 0x26
def Key_Apostrophe : Int := 0x27
def Key_ParenLeft : Int := 0x28
def Key_ParenRight : Int := 0x29
def Key_Asterisk : Int := 0x2a
def Key_Plus : Int := 0x2b
def Key_Comma : Int := 0x2c
def Key_Minus : Int := 0x2d
def Key_Period : Int := 0x2e
def Key_Slash : Int := 0x2f
def Key_0 : Int := 0x30
def Key_1 : Int := 0x31
def Key_2 : Int := 0x32
def Key_3 : Int := 0x33
def Key_4 : Int := 0x34
def Key_5 : Int := 0x35
def Key_6 : Int := 0x36
def Key_7 : Int := 0x37
def Key_8 : Int := 0x38
def Key_9 : Int := 0x39
def Key_Colon : Int := 0x3a
def Key_Semicolon : Int := 0x3b
def Key_Less : Int := 0x3c
def Key_Equal : Int := 0x3d
def Key_Greater : Int := 0x3e
def Key_Question : Int := 0x3f
def Key_At : Int := 0x40
def Key_A : Int := 0x41
def Key_BracketLeft : Int := 0x5b
def Key_Backslash : Int := 0x5c
def Key_BracketRight : Int := 0x5d
def Key_AsciiCircum : Int := 0x5e
def Key_Underscore : Int := 0x5f
def Key_QuoteLeft : Int := 0x60
def Key_BraceLeft : Int := 0x7b
def Key_Bar : Int := 0x7c
def Key_BraceRight : Int := 0x7d
def Key_AsciiTilde : Int := 0x7e

end Qt

def MOD_L_CTRL : Nat := 0x01
def MOD_L_SHIFT : Nat := 0x02
def MOD_L_ALT : Nat := 0x04
def MOD_L_WIN : Nat := 0x08

/-- `HidController::qtModifiersToHid`. -/
def qtModifiersToHid (modifiers : Nat) : Nat :=
  let m0 : Nat := 0
  let m1 := if modifiers &&& Qt.ControlModifier ≠ 0 then m0 ||| MOD_L_CTRL else m0
  let m2 := if modifiers &&& Qt.ShiftModifier ≠ 0 then m1 ||| MOD_L_SHIFT else m1
  let m3 := if modifiers &&& Qt.AltModifier ≠ 0 then m2 ||| MOD_L_ALT else m2
  let m4 := if modifiers &&& Qt.MetaModifier ≠ 0 then m3 ||| MOD_L_WIN else m3
  m4

/-- Modelled from the spec: the member `m_keyMap` is declared in
`pro_hidcontroller.h`, which is not among the sources; the KeyCodeTable is a
"mapping from local key identifiers to single-byte HID usage codes".  It is
kept as the list of its assignments, the latest first. -/
abbrev KeyMap := List (Int × Nat)

/-- The assignment `m_keyMap[key] = code`, the code stored as one byte. -/
def KeyMap.set (m : KeyMap) (key : Int) (code : Nat) : KeyMap := (key, code % 256) :: m

/-- The test `m_keyMap.contains(key)`. -/
def KeyMap.contains (m : KeyMap) (key : Int) : Bool := (m.lookup key).isSome

/-- The read `m_keyMap[key]` of a key (0 when there is no entry). -/
def KeyMap.value (m : KeyMap) (key : Int) : Nat := (m.lookup key).getD 0

/-- The assignments of `HidController::initKeyMap` after its letter loop, in
program order. -/
def keyAssignments : List (Int × Nat) :=
  [(Qt.Key_1, 0x1E), (Qt.Key_Exclam, 0x1E), (Qt.Key_2, 0x1F), (Qt.Key_At, 0x1F),
   (Qt.Key_3, 0x20), (Qt.Key_NumberSign, 0x20), (Qt.Key_4, 0x21), (Qt.Key_Dollar, 0x21),
   (Qt.Key_5, 0x22), (Qt.Key_Percent, 0x22), (Qt.Key_6, 0x23), (Qt.Key_AsciiCircum, 0x23),
   (Qt.Key_7, 0x24), (Qt.Key_Ampersand, 0x24), (Qt.Key_8, 0x25), (Qt.Key_Asterisk, 0x25),
   (Qt.Key_9, 0x26), (Qt.Key_ParenLeft, 0x26), (Qt.Key_0, 0x27), (Qt.Key_ParenRight, 0x27),
   (Qt.Key_Return, 0x28), (Qt.Key_Enter, 0x28), (Qt.Key_Escape, 0x29),
   (Qt.Key_Backspace, 0x2A), (Qt.Key_Tab, 0x2B), (Qt.Key_Space, 0x2C),
   (Qt.Key_Minus, 0x2D), (Qt.Key_Underscore, 0x2D), (Qt.Key_Equal, 0x2E), (Qt.Key_Plus, 0x2E),
   (Qt.Key_BracketLeft, 0x2F), (Qt.Key_BraceLeft, 0x2F),
   (Qt.Key_BracketRight, 0x30), (Qt.Key_BraceRight, 0x30),
   (Qt.Key_Backslash, 0x31), (Qt.Key_Bar, 0x31),
   (Qt.Key_Semicolon, 0x33), (Qt.Key_Colon, 0x33),
   (Qt.Key_Apostrophe, 0x34), (Qt.Key_QuoteDbl, 0x34),
   (Qt.Key_QuoteLeft, 0x35), (Qt.Key_AsciiTilde, 0x35),
   (Qt.Key_Comma, 0x36), (Qt.Key_Less, 0x36), (Qt.Key_Period, 0x37), (Qt.Key_Greater, 0x37),
   (Qt.Key_Slash, 0x38), (Qt.Key_Question, 0x38), (Qt.Key_CapsLock, 0x39),
   (Qt.Key_F1, 0x3A), (Qt.Key_F2, 0x3B), (Qt.Key_F3, 0x3C), (Qt.Key_F4, 0x3D),
   (Qt.Key_F5, 0x3E), (Qt.Key_F6, 0x3F), (Qt.Key_F7, 0x40), (Qt.Key_F8, 0x41),
   (Qt.Key_F9, 0x42), (Qt.Key_F10, 0x43), (Qt.Key_F11, 0x44), (Qt.Key_F12, 0x45),
   (Qt.Key_Print, 0x46), (Qt.Key_ScrollLock, 0x47), (Qt.Key_Pause, 0x48),
   (Qt.Key_Insert, 0x49), (Qt.Key_Home, 0x4A), (Qt.Key_PageUp, 0x4B),
   (Qt.Key_Delete, 0x4C), (Qt.Key_End, 0x4D), (Qt.Key_PageDown, 0x4E),
   (Qt.Key_Right, 0x4F), (Qt.Key_Left, 0x50), (Qt.Key_Down, 0x51), (Qt.Key_Up, 0x52),
   (Qt.Key_NumLock, 0x53)]

/-- `HidController::initKeyMap`: the loop `m_keyMap[Qt::Key_A + i] = 0x04 + i`
for `i = 0 .. 25`, then the single assignments. -/
def initKeyMap : KeyMap :=
  let letters : KeyMap :=
    (List.range 26).foldl
      (fun (m : KeyMap) (i : Nat) => m.set (wrapInt32 (Qt.Key_A + (i : Int))) (0x04 + i)) []
  keyAssignments.foldl (fun m kv => m.set kv.1 kv.2) letters

/-- `HidController::parseLocalKey`: the commands pushed.  `m_keyMap` is the
table filled once by the constructor through `initKeyMap`; the members
`param3` and `param4`, which the source leaves unassigned, are given 0. -/
def parseLocalKey (e : QKeyEvent) (isPress : Bool) : List HidCommand :=
  if e.isAutoRepeat then []
  else
    let key := e.key
    let mods := qtModifiersToHid e.modifiers
    let hidCode : Nat := if initKeyMap.contains key then initKeyMap.value key else 0
    [{ type := .CMD_KEYBOARD, param1 := (mods : Int),
       param2 := if isPress then (hidCode : Int) else 0x00, param3 := 0, param4 := 0 }]

/-! ## The display mapping (`pro_hidcontroller.cpp`) -/

/-- Qt's `QSize::scaled(target, Qt::KeepAspectRatio)` on the size `src`. -/
def QSize.scaled (src target : QSize) : QSize :=
  if src.width = 0 ∨ src.height = 0 then target
  else
    let rw := Int.tdiv (target.height * src.width) src.height
    if rw ≤ target.width then { width := wrapInt32 rw, height := target.height }
    else { width := target.width,
           height := wrapInt32 (Int.tdiv (target.width * src.height) src.width) }

/-- `HidController::updateScaleParams`. -/
def updateScaleParams (s : HidController) : HidController :=
  if s.m_sourceSize.isEmpty || s.m_widgetSize.isEmpty then s
  else
    let scaledSize := s.m_sourceSize.scaled s.m_widgetSize
    let x := wrapInt32 (Int.tdiv (wrapInt32 (s.m_widgetSize.width - scaledSize.width)) 2)
    let y := wrapInt32 (Int.tdiv (wrapInt32 (s.m_widgetSize.height - scaledSize.height)) 2)
    { s with m_displayRect :=
        { x := x, y := y, width := scaledSize.width, height := scaledSize.height } }

/-- `HidController::setSourceResolution`. -/
def setSourceResolution (videoSize widgetSize : QSize) (s : HidController) : HidController :=
  updateScaleParams { s with m_sourceSize := videoSize, m_widgetSize := widgetSize }

/-! ## The event filter (`pro_hidcontroller.cpp`) -/

/-- A `QEvent` as the filter sees it: its type and what the two
`static_cast`s of the source read from it. -/
structure QEvent where
  type : EventType
  mouse : QMouseEvent
  key : QKeyEvent
  deriving DecidableEq, Repr

/-- `HidController::eventFilter`: the new state, the commands pushed and the
returned flag (event consumed).  `watchedIsWidget` is `watched->isWidgetType()`
and `watchedSize` the widget's `size()`; the base `QObject::eventFilter`
returns `false`. -/
def eventFilter (now : Int) (watchedIsWidget : Bool) (watchedSize : QSize) (event : QEvent)
    (s : HidController) : HidController × List HidCommand × Bool :=
  if s.m_currentMode = .MODE_NONE ∨ s.m_driver = false then (s, [], false)
  else if event.type = .Resize ∧ watchedIsWidget = true then
    (updateScaleParams { s with m_widgetSize := watchedSize }, [], false)
  else
    match event.type with
    | .KeyPress => (s, parseLocalKey event.key true, true)
    | .KeyRelease => (s, parseLocalKey event.key false, true)
    | .MouseButtonPress | .MouseButtonRelease | .MouseMove | .Wheel =>
      if watchedIsWidget then
        let r := parseLocalMouse now event.mouse event.type s
        (r.1, r.2, true)
      else (s, [], false)
    | _ => (s, [], false)

/-- The commands pushed by a sequence of key events given to `parseLocalKey`
(each with its press flag). -/
def parseLocalKeys (events : List (QKeyEvent × Bool)) : List HidCommand :=
  events.flatMap fun ev => parseLocalKey ev.1 ev.2

/-- A key event of key `key` with no modifier held. -/
def plainKey (key : Int) (isAutoRepeat : Bool) : QKeyEvent :=
  { key := key, modifiers := 0, isAutoRepeat := isAutoRepeat }

/-- A freshly constructed controller in absolute mode with the display
rectangle `(x=50, y=50, w=400, h=300)`. -/
def absoluteController : HidController :=
  { (HidController.init.setControlMode .MODE_ABSOLUTE) with
    m_displayRect := { x := 50, y := 50, width := 400, height := 300 } }

/-- A pointer event (left button held) at widget position `(x, y)`. -/
def pointerAt (x y : Int) : QMouseEvent :=
  { pos := { x := x, y := y }, globalPos := { x := x, y := y },
    button := .NoButton, buttons := 1 }

/-! ## Buffer accounting (`drv_camera.cpp`, `pro_videothread.cpp`) -/

/-- `CameraDevice::captureFrame`: the returned flag and the buffer operations
(the buffer obtained, then the requests of `enqueue`). -/
def CameraDevice.captureFrame (c : CameraDevice) (dqbuf : Option (Nat × Nat)) :
    Bool × List LoopOp :=
  match c.dequeue dqbuf with
  | none => (false, [])
  | some (index, _) => (true, LoopOp.dequeued index :: c.enqueue index)

/-- The buffer indices handed back to the device (`VIDIOC_QBUF`) in a trace. -/
def qbufs : List LoopOp → List Int
  | [] => []
  | LoopOp.qbuf i :: rest => i :: qbufs rest
  | _ :: rest => qbufs rest

/-- The buffer indices obtained from the device in a trace. -/
def dequeues : List LoopOp → List Int
  | [] => []
  | LoopOp.dequeued i :: rest => i :: dequeues rest
  | _ :: rest => dequeues rest

/-- Buffer-pool accounting: the indices owned by the application after a
trace, starting from `held`; a dequeue takes a slot, a `VIDIOC_QBUF` returns
it to the kernel. -/
def heldAfter (held : List Int) : List LoopOp → List Int
  | [] => held
  | LoopOp.dequeued i :: rest => heldAfter (i :: held) rest
  | LoopOp.qbuf i :: rest => heldAfter (held.erase i) rest
  | _ :: rest => heldAfter held rest

/-- A capture device on which `VIDIOC_S_FMT` fails. -/
def failingDevice : V4l2Device :=
  { exactDevice with sFmt := fun _ _ _ => none }

/-- A worker serving port 8080 that has just been asked, by `updateSettings`
alone, for 1280x720 YUYV. -/
def servingController : VideoController :=
  ({ openedController with m_cfgNetOn := true, m_server := some { port := 8080 } }
    ).updateSettings 1280 720 V4L2_PIX_FMT_YUYV 30

/-- A worker serving port 8080 that has just been asked, by `startServer`, to
serve port 9090. -/
def portChangeController : VideoController :=
  ({ openedController with m_cfgNetOn := true, m_server := some { port := 8080 } }
    ).startServer 9090

/-- A resource operation that stops or starts the capture device. -/
def HwOp.touchesCamera : HwOp → Bool
  | .cameraStop => true
  | .cameraStart _ _ _ _ _ => true
  | _ => false

/-- What one loop iteration receives in the scenarios below: the given
device, one keyboard message `[0x01, 0x02, 0x04]`, one client, buffer 0 ready. -/
def sampleEnv (dev : V4l2Device) : LoopEnv :=
  { dev := dev, msgs := [[1, 2, 4]], clients := 1, dqbuf := some (0, 614400) }

/-- A capture device that is streaming 640x480 YUYV from four mapped buffers. -/
def capturingCamera : CameraDevice :=
  ((CameraDevice.init.openDevice 3).1.startCapturing exactDevice 640 480
    V4L2_PIX_FMT_YUYV 30).1

/-- A worker whose capture device is streaming and that has an encoder and a
server. -/
def streamingController : VideoController :=
  { VideoController.init with
      m_pause := false, m_cfgFmt := V4L2_PIX_FMT_YUYV, m_cfgNetOn := true,
      m_encoder := some { width := 640, height := 480, bitrate := 614400 },
      m_server := some { port := 8080 }, m_camera := capturingCamera }

/-- The shifted symbol keys of the claim, each paired with its unshifted
counterpart: `! 1`, `@ 2`, `# 3`, `$ 4`, `% 5`, `^ 6`, `& 7`, `* 8`, `( 9`,
`) 0`, `_ -`, `+ =`, `{ [`, `} ]`, `| \`, `: ;`, `" '`, `~` and the back quote,
`< ,`, `> .`, `? /`. -/
def shiftedSymbolPairs : List (Int × Int) :=
  [(Qt.Key_Exclam, Qt.Key_1), (Qt.Key_At, Qt.Key_2), (Qt.Key_NumberSign, Qt.Key_3),
   (Qt.Key_Dollar, Qt.Key_4), (Qt.Key_Percent, Qt.Key_5), (Qt.Key_AsciiCircum, Qt.Key_6),
   (Qt.Key_Ampersand, Qt.Key_7), (Qt.Key_Asterisk, Qt.Key_8), (Qt.Key_ParenLeft, Qt.Key_9),
   (Qt.Key_ParenRight, Qt.Key_0), (Qt.Key_Underscore, Qt.Key_Minus),
   (Qt.Key_Plus, Qt.Key_Equal), (Qt.Key_BraceLeft, Qt.Key_BracketLeft),
   (Qt.Key_BraceRight, Qt.Key_BracketRight), (Qt.Key_Bar, Qt.Key_Backslash),
   (Qt.Key_Colon, Qt.Key_Semicolon), (Qt.Key_QuoteDbl, Qt.Key_Apostrophe),
   (Qt.Key_AsciiTilde, Qt.Key_QuoteLeft), (Qt.Key_Less, Qt.Key_Comma),
   (Qt.Key_Greater, Qt.Key_Period), (Qt.Key_Question, Qt.Key_Slash)]

/-- A capture device on which every `mmap` of a buffer fails and every other
request succeeds. -/
def mmapFailingDevice : V4l2Device :=
  { exactDevice with mmapOk := fun _ => false }

/-- A capture device on which the frame-interval request and every per-buffer
request (query, map, enqueue) fail, the format, buffer and stream-on requests
succeeding. -/
def lameDevice : V4l2Device :=
  { exactDevice with sParm := fun _ => false, querybuf := fun _ => false,
                     mmapOk := fun _ => false, qbuf := fun _ => false }

/-- A worker asked at once for 1280x720 YUYV capture and for a server on port
9090, with an encoder and a server for port 8080 in place. -/
def doubleRequestController : VideoController :=
  (({ openedController with
        m_cfgNetOn := true, m_encoder := some { width := 640, height := 480, bitrate := 614400 },
        m_server := some { port := 8080 } }).updateSettings 1280 720 V4L2_PIX_FMT_YUYV 30
    ).startServer 9090

/-! ## Machine-integer lemmas -/

theorem wrapInt32_of_range (z : Int) (h1 : -2147483648 ≤ z) (h2 : z ≤ 2147483647) :
    wrapInt32 z = z := by
  unfold wrapInt32; omega

theorem wrapInt32_range (z : Int) :
    -2147483648 ≤ wrapInt32 z ∧ wrapInt32 z ≤ 2147483647 := by
  unfold wrapInt32; omega

theorem qBound_range (lo v hi : Int) (h : lo ≤ hi) :
    lo ≤ qBound lo v hi ∧ qBound lo v hi ≤ hi := by
  unfold qBound; omega

theorem qBound_of_mem (lo v hi : Int) (h1 : lo ≤ v) (h2 : v ≤ hi) :
    qBound lo v hi = v := by
  unfold qBound; omega

/-! ## Absolute mode -/

theorem absAxis_range (pos origin dim : Int) (hdim : 0 < dim) :
    0 ≤ absAxis pos origin dim ∧ absAxis pos origin dim ≤ 4095 := by
  have hq := qBound_range 0 (wrapInt32 (pos - origin)) dim (le_of_lt hdim)
  have hnum : 0 ≤ qBound 0 (wrapInt32 (pos - origin)) dim * 4095 := by omega
  have hdiv : Int.tdiv (qBound 0 (wrapInt32 (pos - origin)) dim * 4095) dim
      = qBound 0 (wrapInt32 (pos - origin)) dim * 4095 / dim :=
    Int.tdiv_eq_ediv hnum (le_of_lt hdim)
  have hlo : 0 ≤ qBound 0 (wrapInt32 (pos - origin)) dim * 4095 / dim :=
    Int.ediv_nonneg hnum (le_of_lt hdim)
  have hhi : qBound 0 (wrapInt32 (pos - origin)) dim * 4095 / dim ≤ 4095 := by
    have hle : qBound 0 (wrapInt32 (pos - origin)) dim * 4095 ≤ 4095 * dim := by omega
    calc qBound 0 (wrapInt32 (pos - origin)) dim * 4095 / dim
        ≤ 4095 * dim / dim := Int.ediv_le_ediv hdim hle
      _ = 4095 := Int.mul_ediv_cancel 4095 (ne_of_gt hdim)
  simp only [absAxis, gt_iff_lt, hdim, if_true, hdiv]
  rw [wrapInt32_of_range _ (by omega) (by omega)]
  exact ⟨hlo, hhi⟩

/-- C1: in absolute mode with a display rectangle of positive width and
height, `parseLocalMouse` pushes exactly one command for any pointer position
whatsoever; it is a `CMD_MOUSE_ABS` command and its `param1` (x) and `param2`
(y) both lie in `[0, 4095]`. -/
theorem parseLocalMouse_absolute_range (now : Int) (e : QMouseEvent) (type : EventType)
    (s : HidController) (hmode : s.m_currentMode = HidControlMode.MODE_ABSOLUTE)
    (hw : 0 < s.m_displayRect.width) (hh : 0 < s.m_displayRect.height) :
    ∃ cmd, (parseLocalMouse now e type s).2 = [cmd]
      ∧ cmd.type = CmdType.CMD_MOUSE_ABS
      ∧ 0 ≤ cmd.param1 ∧ cmd.param1 ≤ 4095
      ∧ 0 ≤ cmd.param2 ∧ cmd.param2 ≤ 4095 := by
  have hne : s.m_displayRect.isEmpty = false := by
    simp only [QRect.isEmpty, Bool.or_eq_false_iff, decide_eq_false_iff_not]
    omega
  have hx := absAxis_range e.pos.x s.m_displayRect.x s.m_displayRect.width hw
  have hy := absAxis_range e.pos.y s.m_displayRect.y s.m_displayRect.height hh
  refine ⟨{ type := CmdType.CMD_MOUSE_ABS,
            param1 := absAxis e.pos.x s.m_displayRect.x s.m_displayRect.width,
            param2 := absAxis e.pos.y s.m_displayRect.y s.m_displayRect.height,
            param3 := getHidButtonState e.buttons, param4 := 0 },
          ?_, rfl, hx.1, hx.2, hy.1, hy.2⟩
  simp [parseLocalMouse, hmode, hne]

/-- Witness of C1: rectangle `(50, 50, 400, 300)` and a pointer far outside
it, at `(-7, 100000)`. -/
theorem parseLocalMouse_absolute_range_witness :
    ∃ cmd, (parseLocalMouse 0
        { pos := { x := -7, y := 100000 }, globalPos := { x := 0, y := 0 },
          button := MouseButton.NoButton, buttons := 1 }
        EventType.MouseMove
        { m_driver := true, m_currentMode := HidControlMode.MODE_ABSOLUTE,
          m_sourceSize := { width := 1920, height := 1080 },
          m_widgetSize := { width := 500, height := 400 },
          m_displayRect := { x := 50, y := 50, width := 400, height := 300 },
          m_isLeftButtonDown := false, m_longPressHandled := false,
          m_hasMovedSignificantly := false, m_pressStartTime := 0,
          m_pressStartPos := { x := 0, y := 0 }, lastPos := none }).2 = [cmd]
      ∧ cmd.type = CmdType.CMD_MOUSE_ABS
      ∧ 0 ≤ cmd.param1 ∧ cmd.param1 ≤ 4095
      ∧ 0 ≤ cmd.param2 ∧ cmd.param2 ≤ 4095 :=
  parseLocalMouse_absolute_range 0 _ _ _ rfl (by decide) (by decide)

/-! ## Relative mode: deltas -/

/-- C2: a relative-mode move event at global position `p`, when the recorded
previous position is `q`, pushes exactly one `CMD_MOUSE_REL` command with
button and wheel fields zero whose `param1` and `param2` lie in `[-127, 127]`;
when the coordinate differences are representable as `int` they are
`clamp(p.x - q.x, -127, 127)` and `clamp(p.y - q.y, -127, 127)`, and a
difference already in `[-127, 127]` is emitted unchanged. -/
theorem parseLocalMouse_relative_delta (now : Int) (e : QMouseEvent) (s : HidController)
    (q : QPoint) (hmode : s.m_currentMode = HidControlMode.MODE_RELATIVE)
    (hlast : s.lastPos = some q) :
    ∃ cmd, (parseLocalMouse now e EventType.MouseMove s).2 = [cmd]
      ∧ cmd.type = CmdType.CMD_MOUSE_REL ∧ cmd.param3 = 0 ∧ cmd.param4 = 0
      ∧ (-127 ≤ cmd.param1 ∧ cmd.param1 ≤ 127)
      ∧ (-127 ≤ cmd.param2 ∧ cmd.param2 ≤ 127)
      ∧ (-2147483648 ≤ e.globalPos.x - q.x → e.globalPos.x - q.x ≤ 2147483647 →
          cmd.param1 = max (-127) (min 127 (e.globalPos.x - q.x)))
      ∧ (-2147483648 ≤ e.globalPos.y - q.y → e.globalPos.y - q.y ≤ 2147483647 →
          cmd.param2 = max (-127) (min 127 (e.globalPos.y - q.y)))
      ∧ (-127 ≤ e.globalPos.x - q.x → e.globalPos.x - q.x ≤ 127 →
          cmd.param1 = e.globalPos.x - q.x)
      ∧ (-127 ≤ e.globalPos.y - q.y → e.globalPos.y - q.y ≤ 127 →
          cmd.param2 = e.globalPos.y - q.y) := by
  refine ⟨{ type := CmdType.CMD_MOUSE_REL,
            param1 := qBound (-127) (wrapInt32 (e.globalPos.x - q.x)) 127,
            param2 := qBound (-127) (wrapInt32 (e.globalPos.y - q.y)) 127,
            param3 := 0, param4 := 0 }, ?_, rfl, rfl, rfl,
          qBound_range _ _ _ (by decide), qBound_range _ _ _ (by decide), ?_, ?_, ?_, ?_⟩
  · simp [parseLocalMouse, hmode, hlast]
  · intro h1 h2
    show qBound (-127) (wrapInt32 (e.globalPos.x - q.x)) 127 = _
    rw [wrapInt32_of_range _ h1 h2]; rfl
  · intro h1 h2
    show qBound (-127) (wrapInt32 (e.globalPos.y - q.y)) 127 = _
    rw [wrapInt32_of_range _ h1 h2]; rfl
  · intro h1 h2
    show qBound (-127) (wrapInt32 (e.globalPos.x - q.x)) 127 = _
    rw [wrapInt32_of_range _ (by omega) (by omega)]
    exact qBound_of_mem _ _ _ h1 h2
  · intro h1 h2
    show qBound (-127) (wrapInt32 (e.globalPos.y - q.y)) 127 = _
    rw [wrapInt32_of_range _ (by omega) (by omega)]
    exact qBound_of_mem _ _ _ h1 h2

/-- Witness of C2: previous position `(10, 10)`, move to `(300, 7)`. -/
theorem parseLocalMouse_relative_delta_witness :
    ∃ cmd, (parseLocalMouse 0
        { pos := { x := 0, y := 0 }, globalPos := { x := 300, y := 7 },
          button := MouseButton.NoButton, buttons := 0 }
        EventType.MouseMove
        { (HidController.init.setControlMode HidControlMode.MODE_RELATIVE) with
          lastPos := some { x := 10, y := 10 } }).2 = [cmd]
      ∧ cmd.type = CmdType.CMD_MOUSE_REL ∧ cmd.param3 = 0 ∧ cmd.param4 = 0
      ∧ (-127 ≤ cmd.param1 ∧ cmd.param1 ≤ 127)
      ∧ (-127 ≤ cmd.param2 ∧ cmd.param2 ≤ 127)
      ∧ (-2147483648 ≤ (300 : Int) - 10 → (300 : Int) - 10 ≤ 2147483647 →
          cmd.param1 = max (-127) (min 127 ((300 : Int) - 10)))
      ∧ (-2147483648 ≤ (7 : Int) - 10 → (7 : Int) - 10 ≤ 2147483647 →
          cmd.param2 = max (-127) (min 127 ((7 : Int) - 10)))
      ∧ (-127 ≤ (300 : Int) - 10 → (300 : Int) - 10 ≤ 127 →
          cmd.param1 = (300 : Int) - 10)
      ∧ (-127 ≤ (7 : Int) - 10 → (7 : Int) - 10 ≤ 127 →
          cmd.param2 = (7 : Int) - 10) :=
  parseLocalMouse_relative_delta 0 _ _ { x := 10, y := 10 } rfl rfl

/-! ## Relative mode: the long-press detector -/

theorem rightClicks_nil : rightClicks [] = 0 := rfl

theorem rightClicks_append (a b : List DriverCall) :
    rightClicks (a ++ b) = rightClicks a + rightClicks b := by
  unfold rightClicks; exact List.count_append _ _ _

theorem rightClicks_dispatch (popped : List HidCommand) :
    rightClicks (popped.map dispatch) = 0 := by
  unfold rightClicks
  rw [List.count_eq_zero]
  intro h
  obtain ⟨c, _, hc⟩ := List.mem_map.1 h
  cases hct : c.type <;> simp [dispatch, hct] at hc

theorem manhattanLength_sub (a b : QPoint) (h : manhattan a b ≤ 2147483647) :
    (a.sub b).manhattanLength = (manhattan a b : Int) := by
  unfold manhattan at *
  simp only [QPoint.sub, QPoint.manhattanLength, qAbs, wrapInt32, Nat.cast_add]
  split_ifs <;> omega

theorem onMainLoop_armed_early {t0 : Int} {o : QPoint} {s : HidController}
    (h : Armed t0 o s) (popped : List HidCommand) (now : Int) (hn : ¬ now > t0 + 500) :
    onMainLoop popped now s = some (s, popped.map dispatch) := by
  obtain ⟨h1, h2, h3, h4, h5, h6, _⟩ := h
  have hn2 : ¬ now - t0 > 500 := by omega
  simp [onMainLoop, h1, h2, h3, h4, h5, h6, hn2]

theorem onMainLoop_armed_late {t0 : Int} {o : QPoint} {s : HidController}
    (h : Armed t0 o s) (popped : List HidCommand) (now : Int) (hn : now > t0 + 500) :
    onMainLoop popped now s
      = some ({ s with m_longPressHandled := true },
              popped.map dispatch ++ [DriverCall.clickMouse MOUSE_RIGHT]) := by
  obtain ⟨h1, h2, h3, h4, h5, h6, _⟩ := h
  have hn2 : now - t0 > 500 := by omega
  simp [onMainLoop, h1, h2, h3, h4, h5, h6, hn2]

theorem onMainLoop_settled {s : HidController} (h : Settled s)
    (popped : List HidCommand) (now : Int) :
    ∃ s1, onMainLoop popped now s = some (s1, popped.map dispatch) ∧ Settled s1 := by
  obtain ⟨h1, h2, h3⟩ := h
  by_cases hh : s.m_longPressHandled = true
  · exact ⟨s, by simp [onMainLoop, h1, h2, hh], h1, h2, h3⟩
  · have hm : s.m_hasMovedSignificantly = true := by
      rcases h3 with h3 | h3
      · exact absurd h3 hh
      · exact h3
    have hf : s.m_longPressHandled = false := by simpa using hh
    by_cases hd : s.m_isLeftButtonDown = true
    · exact ⟨{ s with m_longPressHandled := true },
        by simp [onMainLoop, h1, h2, hf, hm, hd], h1, h2, Or.inl rfl⟩
    · exact ⟨s, by simp [onMainLoop, h1, h2, hf, hm, hd], h1, h2, h3⟩

theorem parseLocalMouse_armed {t0 : Int} {o : QPoint} {s : HidController}
    (h : Armed t0 o s) (now : Int) (e : QMouseEvent) (type : EventType)
    (hq : (Input.mouse now e type).quiet o = true) :
    Armed t0 o (parseLocalMouse now e type s).1 := by
  obtain ⟨h1, h2, h3, h4, h5, h6, h7⟩ := h
  simp only [Input.quiet, isLeftPress, isLeftRelease, Bool.and_eq_true, Bool.not_eq_true',
    Bool.or_eq_true, decide_eq_true_eq, Bool.and_eq_false_iff, decide_eq_false_iff_not] at hq
  obtain ⟨⟨hp, hr⟩, hm⟩ := hq
  have hp2 : ¬ (type = EventType.MouseButtonPress ∧ e.button = MouseButton.LeftButton) := by
    rintro ⟨a, b⟩; rcases hp with hp | hp <;> contradiction
  have hr2 : ¬ (type = EventType.MouseButtonRelease ∧ e.button = MouseButton.LeftButton) := by
    rintro ⟨a, b⟩; rcases hr with hr | hr <;> contradiction
  by_cases hmv : type = EventType.MouseMove
  · have hnear : manhattan e.globalPos o ≤ 5 := by
      rcases hm with hm | hm
      · exact absurd hmv hm
      · exact hm
    have hlen : ¬ (e.globalPos.sub o).manhattanLength > 5 := by
      rw [manhattanLength_sub _ _ (by omega)]; omega
    simp [Armed, parseLocalMouse, h1, h2, h3, h4, h5, h6, h7, hmv, hlen]
  · simp [Armed, parseLocalMouse, h1, h2, h3, h4, h5, h6, h7, hp2, hr2, hmv]

theorem parseLocalMouse_settled {s : HidController} (h : Settled s)
    (now : Int) (e : QMouseEvent) (type : EventType)
    (hq : (Input.mouse now e type).noLeftPress = true) :
    Settled (parseLocalMouse now e type s).1 := by
  obtain ⟨h1, h2, h3⟩ := h
  simp only [Input.noLeftPress, isLeftPress, Bool.not_eq_true', Bool.and_eq_false_iff,
    decide_eq_false_iff_not] at hq
  have hp2 : ¬ (type = EventType.MouseButtonPress ∧ e.button = MouseButton.LeftButton) := by
    rintro ⟨a, b⟩; rcases hq with hq | hq <;> contradiction
  by_cases hmv : type = EventType.MouseMove
  · rcases h3 with h3 | h3
    · simp [Settled, parseLocalMouse, h1, h2, h3, hmv]
    · simp [Settled, parseLocalMouse, h1, h2, h3, hmv]
  · by_cases hr : type = EventType.MouseButtonRelease ∧ e.button = MouseButton.LeftButton
    · rcases h3 with h3 | h3
      · simp [Settled, parseLocalMouse, h1, h2, h3, hr]
      · simp [Settled, parseLocalMouse, h1, h2, h3, hr]
    · rcases h3 with h3 | h3
      · simp [Settled, parseLocalMouse, h1, h2, h3, hp2, hmv, hr]
      · simp [Settled, parseLocalMouse, h1, h2, h3, hp2, hmv, hr]

theorem quiet_noLeftPress (o : QPoint) (i : Input) (h : i.quiet o = true) :
    i.noLeftPress = true := by
  cases i with
  | poll now popped => rfl
  | mouse now e type =>
    simp only [Input.quiet, Bool.and_eq_true] at h
    exact h.1.1

theorem parseLocalMouse_press_armed (s : HidController) (t0 : Int) (e : QMouseEvent)
    (hdrv : s.m_driver = true) (hmode : s.m_currentMode = HidControlMode.MODE_RELATIVE)
    (hbtn : e.button = MouseButton.LeftButton) :
    Armed t0 e.globalPos (parseLocalMouse t0 e EventType.MouseButtonPress s).1
      ∧ (parseLocalMouse t0 e EventType.MouseButtonPress s).2 = [] := by
  simp [Armed, parseLocalMouse, hdrv, hmode, hbtn]

theorem run_append (a b : List Input) :
    ∀ (s s1 s2 : HidController) (p1 p2 : List HidCommand) (d1 d2 : List DriverCall),
      run s a = some (s1, p1, d1) → run s1 b = some (s2, p2, d2) →
      run s (a ++ b) = some (s2, p1 ++ p2, d1 ++ d2) := by
  induction a with
  | nil =>
    intro s s1 s2 p1 p2 d1 d2 h1 h2
    simp only [run, Option.some.injEq, Prod.mk.injEq] at h1
    obtain ⟨rfl, rfl, rfl⟩ := h1
    simpa using h2
  | cons i rest ih =>
    intro s s1 s2 p1 p2 d1 d2 h1 h2
    simp only [run] at h1
    cases hs : step s i with
    | none => simp [hs] at h1
    | some r =>
      obtain ⟨sa, pa, da⟩ := r
      simp only [hs] at h1
      cases hr : run sa rest with
      | none => simp [hr] at h1
      | some r2 =>
        obtain ⟨sb, pb, db⟩ := r2
        simp only [hr, Option.some.injEq, Prod.mk.injEq] at h1
        obtain ⟨rfl, rfl, rfl⟩ := h1
        have := ih sa sb s2 pb p2 db d2 hr h2
        simp [run, hs, this]

theorem run_settled (ins : List Input) :
    ∀ s, Settled s → (∀ i ∈ ins, i.noLeftPress = true) →
      ∃ s1 p d, run s ins = some (s1, p, d) ∧ Settled s1 ∧ rightClicks d = 0 := by
  induction ins with
  | nil => intro s h _; exact ⟨s, [], [], rfl, h, rfl⟩
  | cons i rest ih =>
    intro s h hq
    have hi := hq i (List.mem_cons_self _ _)
    have hrest : ∀ j ∈ rest, j.noLeftPress = true :=
      fun j hj => hq j (List.mem_cons_of_mem _ hj)
    cases i with
    | mouse now e type =>
      obtain ⟨s1, p, d, hrun, hs, hc⟩ :=
        ih _ (parseLocalMouse_settled h now e type hi) hrest
      exact ⟨s1, (parseLocalMouse now e type s).2 ++ p, d,
        by simp [run, step, hrun], hs, hc⟩
    | poll now popped =>
      obtain ⟨sa, hml, hsa⟩ := onMainLoop_settled h popped now
      obtain ⟨s1, p, d, hrun, hs, hc⟩ := ih _ hsa hrest
      exact ⟨s1, p, popped.map dispatch ++ d, by simp [run, step, hml, hrun], hs,
        by rw [rightClicks_append, rightClicks_dispatch, hc]⟩

theorem run_armed_early (t0 : Int) (o : QPoint) (ins : List Input) :
    ∀ s, Armed t0 o s →
      (∀ i ∈ ins, i.quiet o = true) → (∀ i ∈ ins, i.pollAfter (t0 + 500) = false) →
      ∃ s1 p d, run s ins = some (s1, p, d) ∧ Armed t0 o s1 ∧ rightClicks d = 0 := by
  induction ins with
  | nil => intro s h _ _; exact ⟨s, [], [], rfl, h, rfl⟩
  | cons i rest ih =>
    intro s h hq he
    have hi := hq i (List.mem_cons_self _ _)
    have hie := he i (List.mem_cons_self _ _)
    have hrest : ∀ j ∈ rest, j.quiet o = true :=
      fun j hj => hq j (List.mem_cons_of_mem _ hj)
    have hreste : ∀ j ∈ rest, j.pollAfter (t0 + 500) = false :=
      fun j hj => he j (List.mem_cons_of_mem _ hj)
    cases i with
    | mouse now e type =>
      obtain ⟨s1, p, d, hrun, hs, hc⟩ :=
        ih _ (parseLocalMouse_armed h now e type hi) hrest hreste
      exact ⟨s1, (parseLocalMouse now e type s).2 ++ p, d,
        by simp [run, step, hrun], hs, hc⟩
    | poll now popped =>
      have hn : ¬ now > t0 + 500 := by
        simpa [Input.pollAfter] using hie
      have hml := onMainLoop_armed_early h popped now hn
      obtain ⟨s1, p, d, hrun, hs, hc⟩ := ih _ h hrest hreste
      exact ⟨s1, p, popped.map dispatch ++ d, by simp [run, step, hml, hrun], hs,
        by rw [rightClicks_append, rightClicks_dispatch, hc]⟩

theorem armed_fire_settled {t0 : Int} {o : QPoint} {s : HidController}
    (h : Armed t0 o s) : Settled { s with m_longPressHandled := true } :=
  ⟨h.1, h.2.1, Or.inl rfl⟩

theorem run_armed (t0 : Int) (o : QPoint) (ins : List Input) :
    ∀ s, Armed t0 o s → (∀ i ∈ ins, i.quiet o = true) →
      ∃ s1 p d, run s ins = some (s1, p, d)
        ∧ rightClicks d = (if ins.any (Input.pollAfter (t0 + 500)) then 1 else 0)
        ∧ (ins.any (Input.pollAfter (t0 + 500)) = false → Armed t0 o s1)
        ∧ (ins.any (Input.pollAfter (t0 + 500)) = true → Settled s1) := by
  induction ins with
  | nil => intro s h _; exact ⟨s, [], [], rfl, rfl, fun _ => h, fun hc => by simp at hc⟩
  | cons i rest ih =>
    intro s h hq
    have hi := hq i (List.mem_cons_self _ _)
    have hrest : ∀ j ∈ rest, j.quiet o = true :=
      fun j hj => hq j (List.mem_cons_of_mem _ hj)
    cases i with
    | mouse now e type =>
      obtain ⟨s1, p, d, hrun, hc, ha, hs⟩ :=
        ih _ (parseLocalMouse_armed h now e type hi) hrest
      refine ⟨s1, (parseLocalMouse now e type s).2 ++ p, d,
        by simp [run, step, hrun], ?_, ?_, ?_⟩
      · simpa [List.any_cons, Input.pollAfter] using hc
      · intro hany; apply ha; simpa [List.any_cons, Input.pollAfter] using hany
      · intro hany; apply hs; simpa [List.any_cons, Input.pollAfter] using hany
    | poll now popped =>
      by_cases hn : now > t0 + 500
      · have hml := onMainLoop_armed_late h popped now hn
        obtain ⟨s1, p, d, hrun, hs, hc⟩ := run_settled rest _ (armed_fire_settled h)
          (fun j hj => quiet_noLeftPress o j (hrest j hj))
        refine ⟨s1, p, (popped.map dispatch ++ [DriverCall.clickMouse MOUSE_RIGHT]) ++ d,
          by simp [run, step, hml, hrun], ?_, ?_, ?_⟩
        · rw [rightClicks_append, rightClicks_append, rightClicks_dispatch, hc]
          simp [List.any_cons, Input.pollAfter, hn, rightClicks]
        · intro hany; simp [List.any_cons, Input.pollAfter, hn] at hany
        · intro _; exact hs
      · have hml := onMainLoop_armed_early h popped now hn
        obtain ⟨s1, p, d, hrun, hc, ha, hs⟩ := ih _ h hrest
        refine ⟨s1, p, popped.map dispatch ++ d, by simp [run, step, hml, hrun], ?_, ?_, ?_⟩
        · rw [rightClicks_append, rightClicks_dispatch, hc]
          simp [List.any_cons, Input.pollAfter, hn]
        · intro hany; apply ha; simpa [List.any_cons, Input.pollAfter, hn] using hany
        · intro hany; apply hs; simpa [List.any_cons, Input.pollAfter, hn] using hany

/-- C3: in relative mode, after a left press at time `t0` followed by any
stimuli that contain no left press, no left release and no move farther than
Manhattan distance 5 from the press position, (1) each poll sends exactly one
right-click if it is the first poll whose time exceeds `t0 + 500` and none
otherwise, and (2) the whole sequence sends exactly one right-click if some
poll exceeds `t0 + 500` and none otherwise. -/
theorem longPress_fires_exactly_once (s : HidController) (t0 : Int) (e : QMouseEvent)
    (ins : List Input)
    (hdrv : s.m_driver = true) (hmode : s.m_currentMode = HidControlMode.MODE_RELATIVE)
    (hbtn : e.button = MouseButton.LeftButton)
    (hquiet : ∀ i ∈ ins, i.quiet e.globalPos = true) :
    (∀ pre now popped post, ins = pre ++ Input.poll now popped :: post →
      ∃ s1 pushed sent s2 calls,
        run (parseLocalMouse t0 e EventType.MouseButtonPress s).1 pre = some (s1, pushed, sent)
        ∧ onMainLoop popped now s1 = some (s2, calls)
        ∧ rightClicks calls
            = (if now > t0 + 500 ∧ pre.any (Input.pollAfter (t0 + 500)) = false
               then 1 else 0))
    ∧ ∃ sN pushed sent,
        run (parseLocalMouse t0 e EventType.MouseButtonPress s).1 ins = some (sN, pushed, sent)
        ∧ rightClicks sent = (if ins.any (Input.pollAfter (t0 + 500)) then 1 else 0) := by
  have harm := (parseLocalMouse_press_armed s t0 e hdrv hmode hbtn).1
  constructor
  · intro pre now popped post hsplit
    have hpre : ∀ i ∈ pre, i.quiet e.globalPos = true := by
      intro i hi; apply hquiet; rw [hsplit]; exact List.mem_append_left _ hi
    obtain ⟨s1, p, d, hrun, _, ha, hs⟩ := run_armed t0 e.globalPos pre _ harm hpre
    cases hany : pre.any (Input.pollAfter (t0 + 500)) with
    | true =>
      obtain ⟨s2, hml, _⟩ := onMainLoop_settled (hs hany) popped now
      exact ⟨s1, p, d, s2, _, hrun, hml, by simp [rightClicks_dispatch]⟩
    | false =>
      by_cases hn : now > t0 + 500
      · exact ⟨s1, p, d, _, _, hrun, onMainLoop_armed_late (ha hany) popped now hn,
          by rw [rightClicks_append, rightClicks_dispatch]; simp [hn, rightClicks]⟩
      · exact ⟨s1, p, d, _, _, hrun, onMainLoop_armed_early (ha hany) popped now hn,
          by simp [hn, rightClicks_dispatch]⟩
  · obtain ⟨s1, p, d, hrun, hc, _, _⟩ := run_armed t0 e.globalPos ins _ harm hquiet
    exact ⟨s1, p, d, hrun, hc⟩

/-- C4: in relative mode, a left press, then stimuli that are moves within
Manhattan distance 5 of the press position (or other events that are neither a
left press nor a left release) and polls no later than 500 ms after the press,
then a left release: the release pushes exactly the two commands
`MouseRelative(0,0,0x01,0)` and `MouseRelative(0,0,0,0)` in this order, and no
right-click is sent to the driver during the whole sequence. -/
theorem tap_synthesises_one_click (s : HidController) (t0 t1 : Int) (e r : QMouseEvent)
    (ins : List Input)
    (hdrv : s.m_driver = true) (hmode : s.m_currentMode = HidControlMode.MODE_RELATIVE)
    (hbtn : e.button = MouseButton.LeftButton) (hrel : r.button = MouseButton.LeftButton)
    (hquiet : ∀ i ∈ ins, i.quiet e.globalPos = true)
    (hearly : ∀ i ∈ ins, i.pollAfter (t0 + 500) = false) :
    ∃ s1 pushed sent,
      run s (Input.mouse t0 e EventType.MouseButtonPress :: ins) = some (s1, pushed, sent)
      ∧ (parseLocalMouse t1 r EventType.MouseButtonRelease s1).2 = [clickDown, clickUp]
      ∧ run s (Input.mouse t0 e EventType.MouseButtonPress :: ins
                ++ [Input.mouse t1 r EventType.MouseButtonRelease])
          = some ((parseLocalMouse t1 r EventType.MouseButtonRelease s1).1,
                  pushed ++ [clickDown, clickUp], sent)
      ∧ rightClicks sent = 0 := by
  obtain ⟨harm, hpush⟩ := parseLocalMouse_press_armed s t0 e hdrv hmode hbtn
  obtain ⟨s1, p, d, hrun, ha, hc⟩ := run_armed_early t0 e.globalPos ins _ harm hquiet hearly
  have hrun1 : run s (Input.mouse t0 e EventType.MouseButtonPress :: ins) = some (s1, p, d) := by
    simp [run, step, hrun, hpush]
  have hrelease : (parseLocalMouse t1 r EventType.MouseButtonRelease s1).2
      = [clickDown, clickUp] := by
    obtain ⟨_, h2, _, h4, h5, _, _⟩ := ha
    simp [parseLocalMouse, h2, h4, h5, hrel, clickDown, clickUp, MOUSE_LEFT]
  refine ⟨s1, p, d, hrun1, hrelease, ?_, hc⟩
  have hlast : run s1 [Input.mouse t1 r EventType.MouseButtonRelease]
      = some ((parseLocalMouse t1 r EventType.MouseButtonRelease s1).1, [clickDown, clickUp], []) := by
    simp [run, step, hrelease]
  have := run_append _ _ s s1 _ p _ d _ hrun1 hlast
  simpa using this

/-- C5: in relative mode, a left press, then stimuli that keep the press a
candidate with every poll no later than 500 ms after the press, then a move
farther than Manhattan distance 5 from the press position (the distance being
representable as `int`), then any stimuli other than a left press: no
right-click is sent to the driver during the whole sequence, and a left
release arriving afterwards pushes no command. -/
theorem drag_cancels_long_press (s : HidController) (t0 tm t1 : Int) (e m r : QMouseEvent)
    (pre post : List Input)
    (hdrv : s.m_driver = true) (hmode : s.m_currentMode = HidControlMode.MODE_RELATIVE)
    (hbtn : e.button = MouseButton.LeftButton) (hrel : r.button = MouseButton.LeftButton)
    (hquiet : ∀ i ∈ pre, i.quiet e.globalPos = true)
    (hearly : ∀ i ∈ pre, i.pollAfter (t0 + 500) = false)
    (hfar : 5 < manhattan m.globalPos e.globalPos)
    (hrep : manhattan m.globalPos e.globalPos ≤ 2147483647)
    (hpost : ∀ i ∈ post, i.noLeftPress = true) :
    ∃ s1 pushed sent,
      run s (Input.mouse t0 e EventType.MouseButtonPress :: pre
              ++ Input.mouse tm m EventType.MouseMove :: post) = some (s1, pushed, sent)
      ∧ rightClicks sent = 0
      ∧ (parseLocalMouse t1 r EventType.MouseButtonRelease s1).2 = [] := by
  obtain ⟨harm, hpush⟩ := parseLocalMouse_press_armed s t0 e hdrv hmode hbtn
  obtain ⟨sa, pa, da, hruna, ha, hca⟩ :=
    run_armed_early t0 e.globalPos pre _ harm hquiet hearly
  have hrun1 : run s (Input.mouse t0 e EventType.MouseButtonPress :: pre) = some (sa, pa, da) := by
    simp [run, step, hruna, hpush]
  have hmoved : Settled (parseLocalMouse tm m EventType.MouseMove sa).1 := by
    obtain ⟨h1, h2, _, _, _, _, h7⟩ := ha
    have hlen : (m.globalPos.sub e.globalPos).manhattanLength > 5 := by
      rw [manhattanLength_sub _ _ hrep]; omega
    simp [Settled, parseLocalMouse, h1, h2, h7, hlen]
  obtain ⟨s1, pb, db, hrunb, hs, hcb⟩ := run_settled post _ hmoved hpost
  have hrun2 : run sa (Input.mouse tm m EventType.MouseMove :: post)
      = some (s1, (parseLocalMouse tm m EventType.MouseMove sa).2 ++ pb, db) := by
    simp [run, step, hrunb]
  refine ⟨s1, pa ++ ((parseLocalMouse tm m EventType.MouseMove sa).2 ++ pb), da ++ db,
    ?_, ?_, ?_⟩
  · have := run_append _ _ s sa s1 pa _ da _ hrun1 hrun2
    simpa using this
  · rw [rightClicks_append, hca, hcb]
  · obtain ⟨_, h2, h3⟩ := hs
    rcases h3 with h3 | h3 <;> simp [parseLocalMouse, h2, h3, hrel]

/-- Witness of C3: a press at 1000 ms at `(100, 100)` held through
`holdInputs`. -/
theorem longPress_fires_exactly_once_witness :
    (∀ pre now popped post, holdInputs = pre ++ Input.poll now popped :: post →
      ∃ s1 pushed sent s2 calls,
        run (parseLocalMouse 1000 (leftButtonAt 100 100) EventType.MouseButtonPress
              relativeController).1 pre = some (s1, pushed, sent)
        ∧ onMainLoop popped now s1 = some (s2, calls)
        ∧ rightClicks calls
            = (if now > 1000 + 500 ∧ pre.any (Input.pollAfter (1000 + 500)) = false
               then 1 else 0))
    ∧ ∃ sN pushed sent,
        run (parseLocalMouse 1000 (leftButtonAt 100 100) EventType.MouseButtonPress
              relativeController).1 holdInputs = some (sN, pushed, sent)
        ∧ rightClicks sent = (if holdInputs.any (Input.pollAfter (1000 + 500)) then 1 else 0) :=
  longPress_fires_exactly_once relativeController 1000 (leftButtonAt 100 100) holdInputs
    rfl rfl rfl (by decide)

/-- Witness of C4: a press at 1000 ms, `tapInputs`, a release at 1450 ms. -/
theorem tap_synthesises_one_click_witness :
    ∃ s1 pushed sent,
      run relativeController
        (Input.mouse 1000 (leftButtonAt 100 100) EventType.MouseButtonPress :: tapInputs)
          = some (s1, pushed, sent)
      ∧ (parseLocalMouse 1450 (leftButtonAt 102 101) EventType.MouseButtonRelease s1).2
          = [clickDown, clickUp]
      ∧ run relativeController
          (Input.mouse 1000 (leftButtonAt 100 100) EventType.MouseButtonPress :: tapInputs
            ++ [Input.mouse 1450 (leftButtonAt 102 101) EventType.MouseButtonRelease])
          = some ((parseLocalMouse 1450 (leftButtonAt 102 101)
                    EventType.MouseButtonRelease s1).1,
                  pushed ++ [clickDown, clickUp], sent)
      ∧ rightClicks sent = 0 :=
  tap_synthesises_one_click relativeController 1000 1450 (leftButtonAt 100 100)
    (leftButtonAt 102 101) tapInputs rfl rfl rfl rfl (by decide) (by decide)

/-- Witness of C5: a press at 1000 ms, `tapInputs`, a move to `(140, 100)` at
1450 ms, then `dragInputs`. -/
theorem drag_cancels_long_press_witness :
    ∃ s1 pushed sent,
      run relativeController
        (Input.mouse 1000 (leftButtonAt 100 100) EventType.MouseButtonPress :: tapInputs
          ++ Input.mouse 1450 (moveTo 140 100) EventType.MouseMove :: dragInputs)
          = some (s1, pushed, sent)
      ∧ rightClicks sent = 0
      ∧ (parseLocalMouse 6000 (leftButtonAt 300 300) EventType.MouseButtonRelease s1).2 = [] :=
  drag_cancels_long_press relativeController 1000 1450 6000 (leftButtonAt 100 100)
    (moveTo 140 100) (leftButtonAt 300 300) tapInputs dragInputs rfl rfl rfl rfl
    (by decide) (by decide) (by decide) (by decide) (by decide)

/-! ## Inbound network messages -/

/-- C6: for every inbound message the parser of the worker loop pushes exactly
one command if byte 0 is `0x01` and the length is at least 3, or byte 0 is
`0x02` and the length is at least 7, and pushes no command otherwise (empty
message, too short for its discriminator, other discriminator). -/
theorem parseNetMessage_count (msg : List Byte) :
    (parseNetMessage msg).length
      = (if (msg.head? = some 1 ∧ 3 ≤ msg.length) ∨ (msg.head? = some 2 ∧ 7 ≤ msg.length)
         then 1 else 0) := by
  cases msg with
  | nil => simp [parseNetMessage]
  | cons b rest =>
    have h1 : (b.val = 1) ↔ b = 1 := by
      constructor
      · intro h; exact Fin.ext h
      · intro h; rw [h]; rfl
    have h2 : (b.val = 2) ↔ b = 2 := by
      constructor
      · intro h; exact Fin.ext h
      · intro h; rw [h]; rfl
    by_cases hb2 : b = 2
    · subst hb2
      by_cases hl : 7 ≤ (2 :: rest : List Byte).length
      · have h6 : 6 ≤ rest.length := by simpa using hl
        simp [parseNetMessage, h6]
      · have : ¬ 6 ≤ rest.length := by simpa using hl
        simp [parseNetMessage, this]
    · by_cases hb1 : b = 1
      · subst hb1
        by_cases hl : 3 ≤ (1 :: rest : List Byte).length
        · have h3 : 2 ≤ rest.length := by simpa using hl
          simp [parseNetMessage, h3]
        · have : ¬ 2 ≤ rest.length := by simpa using hl
          simp [parseNetMessage, this]
      · have hv1 : ¬ b.val = 1 := fun h => hb1 (h1.1 h)
        have hv2 : ¬ b.val = 2 := fun h => hb2 (h2.1 h)
        simp [parseNetMessage, hv1, hv2, hb1, hb2]

theorem le16_or (lo hi : Byte) :
    (lo.val ||| (hi.val <<< 8)) % 65536 = lo.val + 256 * hi.val := by
  have hlo : lo.val < 2 ^ 8 := lo.isLt
  have hhi := hi.isLt
  have h := Nat.mul_add_lt_is_or hlo hi.val
  rw [Nat.shiftLeft_eq, Nat.or_comm, Nat.mul_comm, ← h]
  omega

theorem scale_web (x : Nat) (hx : x < 65536) :
    wrapInt32 (Int.tdiv ((x : Int) * 4095) 32767) = ((x * 4095 / 32767 : Nat) : Int) := by
  rw [Int.tdiv_eq_ediv (by omega) (by decide)]
  have : ((x : Int) * 4095) / 32767 = ((x * 4095 / 32767 : Nat) : Int) := by
    push_cast; rfl
  rw [this]
  apply wrapInt32_of_range <;> omega

/-- C7: a message `[0x02, b, xl, xh, yl, yh, w, ...]` yields exactly the
command `MouseAbsolute` with `param1 = floor((xl + 256*xh) * 4095 / 32767)`,
`param2 = floor((yl + 256*yh) * 4095 / 32767)`, `param3 = b` and `param4 = w`
read as a signed byte (`w - 256` when `w >= 128`). -/
theorem parseNetMessage_mouse (b xl xh yl yh w : Byte) (rest : List Byte) :
    parseNetMessage (2 :: b :: xl :: xh :: yl :: yh :: w :: rest)
      = [{ type := CmdType.CMD_MOUSE_ABS,
           param1 := (((xl.val + 256 * xh.val) * 4095 / 32767 : Nat) : Int),
           param2 := (((yl.val + 256 * yh.val) * 4095 / 32767 : Nat) : Int),
           param3 := (b.val : Int),
           param4 := if w.val ≥ 128 then (w.val : Int) - 256 else (w.val : Int) }] := by
  have hx := le16_or xl xh
  have hy := le16_or yl yh
  have hxl := xl.isLt
  have hxh := xh.isLt
  have hyl := yl.isLt
  have hyh := yh.isLt
  have hw : wrapInt8 (w.val : Int) = if w.val ≥ 128 then (w.val : Int) - 256 else (w.val : Int) := by
    have := w.isLt
    unfold wrapInt8
    split_ifs <;> omega
  have hsx := scale_web (xl.val + 256 * xh.val) (by omega)
  have hsy := scale_web (yl.val + 256 * yh.val) (by omega)
  simp only [parseNetMessage, List.isEmpty_cons, Bool.false_eq_true, if_false, List.getD_cons_zero,
    List.getD_cons_succ, List.length_cons, hx, hy]
  rw [hsx, hsy, hw]
  simp

/-- C8, the code at the failing input: the accepted message
`[0x02, 0, 0xFF, 0xFF, 0xFF, 0xFF, 0]` is turned into a `MouseAbsolute`
command with `x = y = 8190`, outside `[0, 4095]`. -/
theorem parseNetMessage_out_of_range :
    parseNetMessage [2, 0, 255, 255, 255, 255, 0]
      = [{ type := CmdType.CMD_MOUSE_ABS, param1 := 8190, param2 := 8190,
           param3 := 0, param4 := 0 }] := by
  decide

/-! ## The reconciliation pass -/

theorem startCapturing_ok_format (dev : V4l2Device) (w h : Int) (f : Nat) (fps : Int)
    (c : CameraDevice) (hok : (c.startCapturing dev w h f fps).2 = true) :
    (c.startCapturing dev w h f fps).1.m_pixelFormat = f := by
  unfold CameraDevice.startCapturing at hok ⊢
  by_cases hfd : c.m_fd < 0
  · simp [hfd] at hok
  · simp only [hfd, if_false] at hok ⊢
    cases hs : dev.sFmt w h f with
    | none => simp [hs] at hok
    | some wh =>
      obtain ⟨w1, h1⟩ := wh
      simp only [hs] at hok ⊢
      cases hr : dev.reqbufs 4 with
      | none => simp [hr] at hok
      | some n =>
        simp only [hr] at hok ⊢
        by_cases hst : dev.streamOn = true
        · simp only [hst, Bool.not_true, Bool.false_eq_true, if_false]
          split_ifs <;> rfl
        · simp [hst] at hok

theorem encode_mem_runIteration (env : LoopEnv) (v : VideoController) (e : VideoEncoder)
    (h : LoopOp.encode e ∈ (runIteration env v).2) :
    (syncHardwareState env.dev v).1.m_encoder = some e := by
  simp only [runIteration, List.mem_append, List.mem_map] at h
  rcases h with (⟨op, _, hop⟩ | h) | h
  · cases hop
  · unfold networkStep at h
    split at h
    · simp at h
    · simp at h
  · generalize (syncHardwareState env.dev v).1 = v1 at h ⊢
    unfold captureStep at h
    by_cases hc : v1.m_camera.isCapturing = true
    · rw [if_pos hc] at h
      cases hdq : v1.m_camera.dequeue env.dqbuf with
      | none => rw [hdq] at h; simp at h
      | some r =>
        obtain ⟨index, len⟩ := r
        rw [hdq] at h
        have hq : LoopOp.encode e ∉ v1.m_camera.enqueue index := by
          unfold CameraDevice.enqueue
          split_ifs <;> simp
        cases he : v1.m_encoder with
        | none => simp [he, hq] at h
        | some e1 =>
          cases hs : v1.m_server with
          | none => simp [he, hs, hq] at h
          | some srv =>
            by_cases hcl : env.clients > 0
            · simp [he, hs, hq, hcl] at h
              rw [h]
            · simp [he, hs, hq, hcl] at h
    · rw [if_neg hc] at h
      simp at h

/-- C9: in a reconciliation pass that finds the capture flag set (the network
flag may be clear: it is not looked at), whose capture restart succeeds, with networking desired and the YUYV format
configured, any existing encoder is deleted and a new encoder with the
configured width and height is constructed in that pass (the operations of the
pass are exactly: stop, start, delete of the old encoder if any, creation of
the server if absent, construction and initialisation of the new encoder), the
controller ends holding the new encoder, and every frame encoded in the same
loop iteration is encoded by it. -/
theorem syncHardwareState_capture_restart_rebuilds_encoder (env : LoopEnv)
    (v : VideoController)
    (hcam : v.m_dirtyCamera = true)
    (hok : (v.m_camera.stopCapturing.startCapturing env.dev v.m_cfgWidth v.m_cfgHeight
              v.m_cfgFmt v.m_cfgFps).2 = true)
    (hon : v.m_cfgNetOn = true) (hfmt : v.m_cfgFmt = V4L2_PIX_FMT_YUYV) :
    (syncHardwareState env.dev v).1.m_encoder
        = some { width := v.m_cfgWidth, height := v.m_cfgHeight,
                 bitrate := encoderBitrate v.m_cfgWidth v.m_cfgHeight }
    ∧ (syncHardwareState env.dev v).2
        = [HwOp.cameraStop,
           HwOp.cameraStart v.m_cfgWidth v.m_cfgHeight v.m_cfgFmt v.m_cfgFps true]
          ++ (match v.m_encoder with
              | some old => [HwOp.deleteEncoder old]
              | none => [])
          ++ (match v.m_server with
              | none => [HwOp.newServer { port := v.m_cfgPort }]
              | some _ => [])
          ++ [HwOp.newEncoder { width := v.m_cfgWidth, height := v.m_cfgHeight,
                                bitrate := encoderBitrate v.m_cfgWidth v.m_cfgHeight },
              HwOp.initEncoder]
    ∧ ∀ e, LoopOp.encode e ∈ (runIteration env v).2 →
        e = { width := v.m_cfgWidth, height := v.m_cfgHeight,
              bitrate := encoderBitrate v.m_cfgWidth v.m_cfgHeight } := by
  have hpf := startCapturing_ok_format env.dev v.m_cfgWidth v.m_cfgHeight v.m_cfgFmt
    v.m_cfgFps v.m_camera.stopCapturing hok
  have hpf2 := hpf.trans hfmt
  have henc : (syncHardwareState env.dev v).1.m_encoder
      = some { width := v.m_cfgWidth, height := v.m_cfgHeight,
               bitrate := encoderBitrate v.m_cfgWidth v.m_cfgHeight } := by
    cases he : v.m_encoder <;> cases hs : v.m_server <;>
      simp [syncHardwareState, hcam, hok, hon, syncNetwork, dropEncoder, ensureServer,
        rebuildEncoder, CameraDevice.getPixelFormat, hpf2, he, hs]
  refine ⟨henc, ?_, ?_⟩
  · cases he : v.m_encoder <;> cases hs : v.m_server <;>
      simp [syncHardwareState, hcam, hok, hon, syncNetwork, dropEncoder, ensureServer,
        rebuildEncoder, CameraDevice.getPixelFormat, hpf2, he, hs]
  · intro e hmem
    have := encode_mem_runIteration env v e hmem
    rw [henc] at this
    exact (Option.some.inj this).symm

/-- Witness of C9: `resizedController` (streaming 640x480, asked for 1280x720
YUYV by `updateSettings` only) on a device that grants every request. -/
theorem syncHardwareState_capture_restart_rebuilds_encoder_witness :
    (syncHardwareState exactDevice resizedController).1.m_encoder
        = some { width := 1280, height := 720, bitrate := encoderBitrate 1280 720 }
    ∧ (syncHardwareState exactDevice resizedController).2
        = [HwOp.cameraStop, HwOp.cameraStart 1280 720 V4L2_PIX_FMT_YUYV 30 true,
           HwOp.deleteEncoder { width := 640, height := 480, bitrate := 614400 },
           HwOp.newEncoder { width := 1280, height := 720, bitrate := encoderBitrate 1280 720 },
           HwOp.initEncoder]
    ∧ ∀ e, LoopOp.encode e ∈ (runIteration
          { dev := exactDevice, msgs := [], clients := 1, dqbuf := some (0, 1843200) }
          resizedController).2 →
        e = { width := 1280, height := 720, bitrate := encoderBitrate 1280 720 } :=
  syncHardwareState_capture_restart_rebuilds_encoder
    { dev := exactDevice, msgs := [], clients := 1, dqbuf := some (0, 1843200) }
    resizedController rfl (by decide) rfl rfl

/-- C10, the code at the failing input: 640x480 YUYV is requested, the driver
negotiates 320x240; after the pass the capture device holds 320x240 and is
capturing, while the encoder built in the same pass is sized 640x480. -/
theorem encoder_sized_to_request_not_negotiated :
    (syncHardwareState shrinkingDevice requestedController).1.m_camera.m_width = 320
    ∧ (syncHardwareState shrinkingDevice requestedController).1.m_camera.m_height = 240
    ∧ (syncHardwareState shrinkingDevice requestedController).1.m_camera.m_isCapturing = true
    ∧ (syncHardwareState shrinkingDevice requestedController).1.m_encoder
        = some { width := 640, height := 480, bitrate := 614400 } := by
  decide

/-! ## Reconciliation: what a pass leaves alone -/

theorem syncNetwork_camera (w h : Int) (netOn : Bool) (p : Int) (v : VideoController) :
    (syncNetwork w h netOn p v).1.m_camera = v.m_camera := by
  cases netOn <;> cases he : v.m_encoder <;> cases hs : v.m_server <;>
    simp [syncNetwork, dropEncoder, ensureServer, dropServer, rebuildEncoder, he, hs] <;>
    split_ifs <;> rfl

theorem syncNetwork_no_camera_op (w h : Int) (netOn : Bool) (p : Int)
    (v : VideoController) :
    ∀ op ∈ (syncNetwork w h netOn p v).2, op.touchesCamera = false := by
  cases netOn <;> cases he : v.m_encoder <;> cases hs : v.m_server <;>
    simp [syncNetwork, dropEncoder, ensureServer, dropServer, rebuildEncoder, he, hs] <;>
    (try split_ifs) <;> (try simp [HwOp.touchesCamera])

theorem syncHardwareState_clean_camera (dev : V4l2Device) (v : VideoController)
    (hclean : v.m_dirtyCamera = false) :
    (syncHardwareState dev v).1.m_camera = v.m_camera
      ∧ ∀ op ∈ (syncHardwareState dev v).2, op.touchesCamera = false := by
  by_cases hn : v.m_dirtyNetwork = true
  · simp only [syncHardwareState, hclean, hn, Bool.false_eq_true, if_false, if_true]
    exact ⟨syncNetwork_camera _ _ _ _ _, syncNetwork_no_camera_op _ _ _ _ _⟩
  · simp [syncHardwareState, hclean, hn]

/-- C11: a reconciliation pass that finds the capture flag clear (network flag
set or not) neither stops nor starts the capture device and leaves the whole
device record, hence its capturing flag and negotiated width, height and pixel
format, as it was; `startServer` sets only the network flag, so the pass that
follows it has this property. -/
theorem network_only_pass_leaves_capture (dev : V4l2Device) (v : VideoController)
    (hclean : v.m_dirtyCamera = false) :
    ((syncHardwareState dev v).1.m_camera = v.m_camera
      ∧ ∀ op ∈ (syncHardwareState dev v).2, op.touchesCamera = false)
    ∧ ∀ port : Int,
        (v.startServer port).m_dirtyCamera = false
        ∧ (syncHardwareState dev (v.startServer port)).1.m_camera = v.m_camera
        ∧ ∀ op ∈ (syncHardwareState dev (v.startServer port)).2, op.touchesCamera = false := by
  refine ⟨syncHardwareState_clean_camera dev v hclean, fun port => ?_⟩
  have h : (v.startServer port).m_dirtyCamera = false := hclean
  exact ⟨h, syncHardwareState_clean_camera dev (v.startServer port) h⟩

/-- Witness of C11: a streaming worker asked to serve port 9090. -/
theorem network_only_pass_leaves_capture_witness :
    ((syncHardwareState exactDevice streamingController).1.m_camera
        = streamingController.m_camera
      ∧ ∀ op ∈ (syncHardwareState exactDevice streamingController).2,
          op.touchesCamera = false)
    ∧ ∀ port : Int,
        (streamingController.startServer port).m_dirtyCamera = false
        ∧ (syncHardwareState exactDevice (streamingController.startServer port)).1.m_camera
            = streamingController.m_camera
        ∧ ∀ op ∈ (syncHardwareState exactDevice (streamingController.startServer port)).2,
            op.touchesCamera = false :=
  network_only_pass_leaves_capture exactDevice streamingController rfl

/-! ## Reconciliation: a failed capture restart -/

theorem stopCapturing_not_capturing (c : CameraDevice) :
    c.stopCapturing.m_isCapturing = false := by
  unfold CameraDevice.stopCapturing
  cases h : c.m_isCapturing <;> simp [h]

theorem startCapturing_fail_not_capturing (dev : V4l2Device) (w h : Int) (f : Nat) (fps : Int)
    (c : CameraDevice) (hc : c.m_isCapturing = false)
    (hfail : (c.startCapturing dev w h f fps).2 = false) :
    (c.startCapturing dev w h f fps).1.m_isCapturing = false := by
  have hstop : c.stopCapturing = c := by simp [CameraDevice.stopCapturing, hc]
  unfold CameraDevice.startCapturing at hfail ⊢
  rw [hstop] at hfail ⊢
  by_cases hfd : c.m_fd < 0
  · simp [hfd, hc]
  · simp only [hfd, if_false] at hfail ⊢
    cases hs : dev.sFmt w h f with
    | none => simp [hs, hc]
    | some wh =>
      obtain ⟨w1, h1⟩ := wh
      simp only [hs] at hfail ⊢
      cases hr : dev.reqbufs 4 with
      | none => simp [hr, hc]
      | some n =>
        simp only [hr] at hfail ⊢
        by_cases hst : dev.streamOn = true
        · simp [hst] at hfail
        · simp [hst, hc]

/-- C12, counterexample: a worker that serves port 8080 is asked for a new
capture size, the restart fails (`VIDIOC_S_FMT` fails), and the same loop
iteration still drains the server and pushes the command of the inbound
keyboard message `[0x01, 0x02, 0x04]`. -/
theorem failed_restart_still_parses_messages :
    servingController.m_dirtyCamera = true
    ∧ (servingController.m_camera.stopCapturing.startCapturing failingDevice 1280 720
        V4L2_PIX_FMT_YUYV 30).2 = false
    ∧ LoopOp.push { type := CmdType.CMD_KEYBOARD, param1 := 2, param2 := 4,
                    param3 := 0, param4 := 0 }
        ∈ (runIteration (sampleEnv failingDevice) servingController).2 := by
  decide

/-- C12 as amended: in a loop iteration that finds the capture flag set and
whose capture restart fails, `m_pause` becomes true, no network reconciliation
is performed (the pass consists of the stop and the failed start; encoder and
server are as before) and no buffer is dequeued (the device is not capturing
and the loop sleeps 10 ms); the inbound messages of an existing server are
still drained and parsed. -/
theorem failed_restart_pauses (env : LoopEnv) (v : VideoController)
    (hcam : v.m_dirtyCamera = true)
    (hfail : (v.m_camera.stopCapturing.startCapturing env.dev v.m_cfgWidth v.m_cfgHeight
              v.m_cfgFmt v.m_cfgFps).2 = false) :
    (runIteration env v).1.m_pause = true
    ∧ (runIteration env v).1.m_encoder = v.m_encoder
    ∧ (runIteration env v).1.m_server = v.m_server
    ∧ (runIteration env v).1.m_camera.isCapturing = false
    ∧ (runIteration env v).2
        = [LoopOp.hw HwOp.cameraStop,
           LoopOp.hw (HwOp.cameraStart v.m_cfgWidth v.m_cfgHeight v.m_cfgFmt v.m_cfgFps false)]
          ++ (match v.m_server with
              | some _ =>
                LoopOp.handleNewConnections :: (parseNetMessages env.msgs).map LoopOp.push
              | none => [])
          ++ [LoopOp.msleep 10] := by
  have hnc := startCapturing_fail_not_capturing env.dev v.m_cfgWidth v.m_cfgHeight v.m_cfgFmt
    v.m_cfgFps v.m_camera.stopCapturing (stopCapturing_not_capturing _) hfail
  have hsync : syncHardwareState env.dev v
      = ({ v with m_dirtyCamera := false, m_dirtyNetwork := false, m_pause := true,
                  m_camera := (v.m_camera.stopCapturing.startCapturing env.dev v.m_cfgWidth
                    v.m_cfgHeight v.m_cfgFmt v.m_cfgFps).1 },
         [HwOp.cameraStop,
          HwOp.cameraStart v.m_cfgWidth v.m_cfgHeight v.m_cfgFmt v.m_cfgFps false]) := by
    simp [syncHardwareState, hcam, hfail]
  refine ⟨?_, ?_, ?_, ?_, ?_⟩
  · simp [runIteration, hsync]
  · simp [runIteration, hsync]
  · simp [runIteration, hsync]
  · simpa [runIteration, hsync, CameraDevice.isCapturing] using hnc
  · cases hs : v.m_server <;>
      simp [runIteration, hsync, networkStep, captureStep, CameraDevice.isCapturing, hnc, hs]

/-- Witness of C12 as amended: `servingController` on a device that refuses
the format. -/
theorem failed_restart_pauses_witness :
    (runIteration (sampleEnv failingDevice) servingController).1.m_pause = true
    ∧ (runIteration (sampleEnv failingDevice) servingController).1.m_encoder
        = servingController.m_encoder
    ∧ (runIteration (sampleEnv failingDevice) servingController).1.m_server
        = servingController.m_server
    ∧ (runIteration (sampleEnv failingDevice) servingController).1.m_camera.isCapturing = false
    ∧ (runIteration (sampleEnv failingDevice) servingController).2
        = [LoopOp.hw HwOp.cameraStop,
           LoopOp.hw (HwOp.cameraStart servingController.m_cfgWidth
             servingController.m_cfgHeight servingController.m_cfgFmt
             servingController.m_cfgFps false)]
          ++ (match servingController.m_server with
              | some _ =>
                LoopOp.handleNewConnections
                  :: (parseNetMessages (sampleEnv failingDevice).msgs).map LoopOp.push
              | none => [])
          ++ [LoopOp.msleep 10] :=
  failed_restart_pauses (sampleEnv failingDevice) servingController rfl (by decide)

/-! ## Reconciliation: the server -/

theorem syncNetwork_server_on (w h p : Int) (v : VideoController) :
    (syncNetwork w h true p v).1.m_server = some (v.m_server.getD { port := p })
      ∧ (HwOp.newServer { port := p } ∈ (syncNetwork w h true p v).2 ↔ v.m_server = none) := by
  cases he : v.m_encoder <;> cases hs : v.m_server <;>
    simp [syncNetwork, dropEncoder, ensureServer, rebuildEncoder, he, hs] <;>
    (try split_ifs) <;> simp [hs]

/-- C13, counterexample: a worker whose server was created for port 8080 is
asked by `startServer(9090)` to serve port 9090; after the pass, which performs
network reconciliation with networking desired, the server is still the one
created for port 8080. -/
theorem existing_server_keeps_its_port :
    portChangeController.m_dirtyNetwork = true
    ∧ portChangeController.m_cfgNetOn = true
    ∧ portChangeController.m_cfgPort = 9090
    ∧ (syncHardwareState exactDevice portChangeController).1.m_server
        = some { port := 8080 }
    ∧ (syncHardwareState exactDevice portChangeController).1.m_server
        ≠ some { port := portChangeController.m_cfgPort } := by
  decide

/-- C13 as amended: after a pass that performs network reconciliation (network
flag set with the capture flag clear, or capture flag set and restart
successful) with networking desired and configured port `p`, a server exists:
the one that existed before the pass if there was one, whatever its port, and
otherwise a new one created for port `p`; a server is created in the pass
exactly when none existed. -/
theorem server_exists_after_network_pass (dev : V4l2Device) (v : VideoController)
    (hrec : (v.m_dirtyCamera = false ∧ v.m_dirtyNetwork = true)
      ∨ (v.m_dirtyCamera = true
          ∧ (v.m_camera.stopCapturing.startCapturing dev v.m_cfgWidth v.m_cfgHeight
              v.m_cfgFmt v.m_cfgFps).2 = true))
    (hon : v.m_cfgNetOn = true) :
    (syncHardwareState dev v).1.m_server
        = (match v.m_server with
           | some existing => some existing
           | none => some { port := v.m_cfgPort })
    ∧ (HwOp.newServer { port := v.m_cfgPort } ∈ (syncHardwareState dev v).2
        ↔ v.m_server = none) := by
  have key : ∀ v0 : VideoController, v0.m_server = v.m_server →
      (syncNetwork v.m_cfgWidth v.m_cfgHeight true v.m_cfgPort v0).1.m_server
          = (match v.m_server with
             | some existing => some existing
             | none => some { port := v.m_cfgPort })
        ∧ (HwOp.newServer { port := v.m_cfgPort }
            ∈ (syncNetwork v.m_cfgWidth v.m_cfgHeight true v.m_cfgPort v0).2
          ↔ v.m_server = none) := by
    intro v0 h0
    have := syncNetwork_server_on v.m_cfgWidth v.m_cfgHeight v.m_cfgPort v0
    rw [h0] at this
    cases hs : v.m_server <;> simpa [hs] using this
  rcases hrec with ⟨hc, hn⟩ | ⟨hc, hok⟩
  · simp only [syncHardwareState, hc, hn, hon, Bool.false_eq_true, if_false, if_true]
    exact key _ rfl
  · simp only [syncHardwareState, hc, hok, hon, if_true, Bool.not_true, Bool.false_eq_true,
      if_false, List.mem_append, List.mem_cons, List.mem_singleton, List.not_mem_nil,
      or_false, false_or]
    have := key { v with m_dirtyCamera := false, m_dirtyNetwork := false, m_cfgNetOn := true,
                         m_camera := (v.m_camera.stopCapturing.startCapturing dev v.m_cfgWidth
                            v.m_cfgHeight v.m_cfgFmt v.m_cfgFps).1 } rfl
    simpa using this

/-- Witness of C13 as amended: `portChangeController` (existing server for
8080, port 9090 configured). -/
theorem server_exists_after_network_pass_witness :
    (syncHardwareState exactDevice portChangeController).1.m_server
        = (match portChangeController.m_server with
           | some existing => some existing
           | none => some { port := portChangeController.m_cfgPort })
    ∧ (HwOp.newServer { port := portChangeController.m_cfgPort }
          ∈ (syncHardwareState exactDevice portChangeController).2
        ↔ portChangeController.m_server = none) :=
  server_exists_after_network_pass exactDevice portChangeController
    (Or.inl ⟨rfl, rfl⟩) rfl

/-! ## Buffer round trip -/

theorem dequeue_some (c : CameraDevice) (dq : Option (Nat × Nat)) (i : Int) (len : Nat)
    (h : c.dequeue dq = some (i, len)) : ¬ c.m_fd < 0 ∧ 0 ≤ i := by
  unfold CameraDevice.dequeue at h
  split_ifs at h with hc
  · simp only [Bool.or_eq_true, Bool.not_eq_true', decide_eq_true_eq, not_or] at hc
    cases dq with
    | none => simp at h
    | some r =>
      obtain ⟨a, b⟩ := r
      simp only [Option.some.injEq, Prod.mk.injEq] at h
      exact ⟨hc.2, by omega⟩

theorem enqueue_after_dequeue (c : CameraDevice) (dq : Option (Nat × Nat)) (i : Int) (len : Nat)
    (h : c.dequeue dq = some (i, len)) : c.enqueue i = [LoopOp.qbuf i] := by
  obtain ⟨h1, h2⟩ := dequeue_some c dq i len h
  have : ¬ (c.m_fd < 0 ∨ i < 0) := by omega
  simp [CameraDevice.enqueue, this]

/-- C14: a capture step of the worker loop that obtains buffer `i` from
`dequeue` hands exactly `i` back to the device, once, after the dequeue; a
step whose `dequeue` returns null (or that does not capture) hands nothing
back; in every case the application owns no buffer after the step.  The same
holds for `captureFrame`. -/
theorem buffer_round_trip (env : LoopEnv) (v : VideoController) (c : CameraDevice)
    (dq : Option (Nat × Nat)) :
    (∀ i len, v.m_camera.isCapturing = true → v.m_camera.dequeue env.dqbuf = some (i, len) →
        dequeues (captureStep env v) = [i] ∧ qbufs (captureStep env v) = [i])
    ∧ (v.m_camera.dequeue env.dqbuf = none →
        dequeues (captureStep env v) = [] ∧ qbufs (captureStep env v) = [])
    ∧ heldAfter [] (captureStep env v) = []
    ∧ (∀ i len, c.dequeue dq = some (i, len) →
        (c.captureFrame dq).1 = true
        ∧ dequeues (c.captureFrame dq).2 = [i] ∧ qbufs (c.captureFrame dq).2 = [i])
    ∧ (c.dequeue dq = none → (c.captureFrame dq) = (false, []))
    ∧ heldAfter [] (c.captureFrame dq).2 = [] := by
  have hstep : ∀ i len, v.m_camera.isCapturing = true →
      v.m_camera.dequeue env.dqbuf = some (i, len) →
      dequeues (captureStep env v) = [i] ∧ qbufs (captureStep env v) = [i]
        ∧ heldAfter [] (captureStep env v) = [] := by
    intro i len hcap hdq
    have henq := enqueue_after_dequeue _ _ _ _ hdq
    cases he : v.m_encoder <;> cases hs : v.m_server <;> by_cases hcl : env.clients > 0 <;>
      simp [captureStep, hcap, hdq, henq, he, hs, hcl, dequeues, qbufs, heldAfter]
  have hnone : v.m_camera.dequeue env.dqbuf = none →
      dequeues (captureStep env v) = [] ∧ qbufs (captureStep env v) = []
        ∧ heldAfter [] (captureStep env v) = [] := by
    intro hdq
    by_cases hcap : v.m_camera.isCapturing = true <;>
      simp [captureStep, hcap, hdq, dequeues, qbufs, heldAfter]
  have hoff : v.m_camera.isCapturing = false → heldAfter [] (captureStep env v) = [] := by
    intro hcap
    simp [captureStep, hcap, heldAfter]
  have hframe : ∀ i len, c.dequeue dq = some (i, len) →
      (c.captureFrame dq).1 = true
      ∧ dequeues (c.captureFrame dq).2 = [i] ∧ qbufs (c.captureFrame dq).2 = [i]
      ∧ heldAfter [] (c.captureFrame dq).2 = [] := by
    intro i len hdq
    have henq := enqueue_after_dequeue _ _ _ _ hdq
    simp [CameraDevice.captureFrame, hdq, henq, dequeues, qbufs, heldAfter]
  refine ⟨fun i len hc hd => ⟨(hstep i len hc hd).1, (hstep i len hc hd).2.1⟩,
    fun hd => ⟨(hnone hd).1, (hnone hd).2.1⟩, ?_,
    fun i len hd => ⟨(hframe i len hd).1, (hframe i len hd).2.1, (hframe i len hd).2.2.1⟩,
    ?_, ?_⟩
  · cases hcap : v.m_camera.isCapturing with
    | false => exact hoff hcap
    | true =>
      cases hdq : v.m_camera.dequeue env.dqbuf with
      | none => exact (hnone hdq).2.2
      | some r => exact (hstep r.1 r.2 hcap hdq).2.2
  · intro hdq
    simp [CameraDevice.captureFrame, hdq]
  · cases hdq : c.dequeue dq with
    | none => simp [CameraDevice.captureFrame, hdq, heldAfter]
    | some r => exact (hframe r.1 r.2 hdq).2.2.2

/-- Witness of C14: a streaming worker and a ready buffer 0. -/
theorem buffer_round_trip_witness :
    streamingController.m_camera.isCapturing = true
    ∧ streamingController.m_camera.dequeue (sampleEnv exactDevice).dqbuf = some (0, 614400)
    ∧ dequeues (captureStep (sampleEnv exactDevice) streamingController) = [0]
    ∧ qbufs (captureStep (sampleEnv exactDevice) streamingController) = [0]
    ∧ heldAfter [] (captureStep (sampleEnv exactDevice) streamingController) = [] :=
  ⟨by decide, by decide,
   ((buffer_round_trip (sampleEnv exactDevice) streamingController capturingCamera
      (some (0, 614400))).1 0 614400 (by decide) (by decide)).1,
   ((buffer_round_trip (sampleEnv exactDevice) streamingController capturingCamera
      (some (0, 614400))).1 0 614400 (by decide) (by decide)).2,
   (buffer_round_trip (sampleEnv exactDevice) streamingController capturingCamera
      (some (0, 614400))).2.2.1⟩

/-! ## Absolute mode: the scenario of the specification -/

theorem parseLocalMouse_absolute_eq (now : Int) (e : QMouseEvent) (type : EventType)
    (s : HidController) (hmode : s.m_currentMode = HidControlMode.MODE_ABSOLUTE)
    (hrect : s.m_displayRect = { x := 50, y := 50, width := 400, height := 300 }) :
    (parseLocalMouse now e type s).2
      = [{ type := CmdType.CMD_MOUSE_ABS, param1 := absAxis e.pos.x 50 400,
           param2 := absAxis e.pos.y 50 300, param3 := getHidButtonState e.buttons,
           param4 := 0 }] := by
  simp [parseLocalMouse, hmode, hrect, QRect.isEmpty]

/-- C15, counterexample: with `displayRect = (50, 50, 400, 300)` the event at
`(450, 350)` yields `x = 4095` and `y = 4095`, not `4084` and `4081`. -/
theorem far_corner_not_clipped_inside :
    (parseLocalMouse 0 (pointerAt 450 350) EventType.MouseMove absoluteController).2
      = [{ type := CmdType.CMD_MOUSE_ABS, param1 := 4095, param2 := 4095,
           param3 := 1, param4 := 0 }]
    ∧ ¬ ∃ cmd, (parseLocalMouse 0 (pointerAt 450 350) EventType.MouseMove
          absoluteController).2 = [cmd] ∧ cmd.param1 = 4084 ∧ cmd.param2 = 4081 := by
  have h : (parseLocalMouse 0 (pointerAt 450 350) EventType.MouseMove absoluteController).2
      = [{ type := CmdType.CMD_MOUSE_ABS, param1 := 4095, param2 := 4095,
           param3 := 1, param4 := 0 }] := by decide
  refine ⟨h, ?_⟩
  rintro ⟨cmd, hc, h1, _⟩
  rw [h] at hc
  simp only [List.cons.injEq, and_true] at hc
  rw [← hc] at h1
  exact absurd h1 (by decide)

/-- C15 as amended: with `displayRect = (50, 50, 400, 300)` in absolute mode,
an event at `(450, 350)` is bounded to rect-relative `(400, 300)` and the
command has `x = 400*4095/400 = 4095`, `y = 300*4095/300 = 4095`; the values
`x = 399*4095/400 = 4084`, `y = 299*4095/300 = 4081` are those of the event at
`(449, 349)`, rect-relative `(399, 299)`. -/
theorem absolute_far_corner (now : Int) (e : QMouseEvent) (type : EventType)
    (s : HidController) (hmode : s.m_currentMode = HidControlMode.MODE_ABSOLUTE)
    (hrect : s.m_displayRect = { x := 50, y := 50, width := 400, height := 300 }) :
    (e.pos = { x := 450, y := 350 } →
      (parseLocalMouse now e type s).2
        = [{ type := CmdType.CMD_MOUSE_ABS, param1 := 4095, param2 := 4095,
             param3 := getHidButtonState e.buttons, param4 := 0 }])
    ∧ (e.pos = { x := 449, y := 349 } →
      (parseLocalMouse now e type s).2
        = [{ type := CmdType.CMD_MOUSE_ABS, param1 := 4084, param2 := 4081,
             param3 := getHidButtonState e.buttons, param4 := 0 }]) := by
  have h := parseLocalMouse_absolute_eq now e type s hmode hrect
  constructor
  · intro hp
    rw [h, hp]
    have hx : absAxis 450 50 400 = 4095 := by decide
    have hy : absAxis 350 50 300 = 4095 := by decide
    simp [hx, hy]
  · intro hp
    rw [h, hp]
    have hx : absAxis 449 50 400 = 4084 := by decide
    have hy : absAxis 349 50 300 = 4081 := by decide
    simp [hx, hy]

/-- Witness of C15 as amended: `absoluteController` and move events. -/
theorem absolute_far_corner_witness :
    (parseLocalMouse 0 (pointerAt 450 350) EventType.MouseMove absoluteController).2
        = [{ type := CmdType.CMD_MOUSE_ABS, param1 := 4095, param2 := 4095,
             param3 := getHidButtonState (pointerAt 450 350).buttons, param4 := 0 }]
    ∧ (parseLocalMouse 0 (pointerAt 449 349) EventType.MouseMove absoluteController).2
        = [{ type := CmdType.CMD_MOUSE_ABS, param1 := 4084, param2 := 4081,
             param3 := getHidButtonState (pointerAt 449 349).buttons, param4 := 0 }] :=
  ⟨(absolute_far_corner 0 (pointerAt 450 350) EventType.MouseMove absoluteController
      rfl rfl).1 rfl,
   (absolute_far_corner 0 (pointerAt 449 349) EventType.MouseMove absoluteController
      rfl rfl).2 rfl⟩

/-- C16, counterexample: with `displayRect = (50, 50, 400, 300)` the event at
`(100, 100)` yields `(x, y) = (511, 682)`, not `(0, 0)`. -/
theorem first_event_not_origin :
    (parseLocalMouse 0 (pointerAt 100 100) EventType.MouseMove absoluteController).2
      = [{ type := CmdType.CMD_MOUSE_ABS, param1 := 511, param2 := 682,
           param3 := 1, param4 := 0 }]
    ∧ ¬ ∃ cmd, (parseLocalMouse 0 (pointerAt 100 100) EventType.MouseMove
          absoluteController).2 = [cmd] ∧ cmd.param1 = 0 ∧ cmd.param2 = 0 := by
  have h : (parseLocalMouse 0 (pointerAt 100 100) EventType.MouseMove absoluteController).2
      = [{ type := CmdType.CMD_MOUSE_ABS, param1 := 511, param2 := 682,
           param3 := 1, param4 := 0 }] := by decide
  refine ⟨h, ?_⟩
  rintro ⟨cmd, hc, h1, _⟩
  rw [h] at hc
  simp only [List.cons.injEq, and_true] at hc
  rw [← hc] at h1
  exact absurd h1 (by decide)

/-- C16 as amended: with `displayRect = (50, 50, 400, 300)` in absolute mode,
an event at `(100, 100)` lies inside the rectangle at rect-relative `(50, 50)`
and yields `(x, y) = (50*4095/400, 50*4095/300) = (511, 682)`; the mapped
coordinates `(0, 0)` are those of the event at the rectangle origin
`(50, 50)`. -/
theorem absolute_first_event (now : Int) (e : QMouseEvent) (type : EventType)
    (s : HidController) (hmode : s.m_currentMode = HidControlMode.MODE_ABSOLUTE)
    (hrect : s.m_displayRect = { x := 50, y := 50, width := 400, height := 300 }) :
    (e.pos = { x := 100, y := 100 } →
      (parseLocalMouse now e type s).2
        = [{ type := CmdType.CMD_MOUSE_ABS, param1 := 511, param2 := 682,
             param3 := getHidButtonState e.buttons, param4 := 0 }])
    ∧ (e.pos = { x := 50, y := 50 } →
      (parseLocalMouse now e type s).2
        = [{ type := CmdType.CMD_MOUSE_ABS, param1 := 0, param2 := 0,
             param3 := getHidButtonState e.buttons, param4 := 0 }]) := by
  have h := parseLocalMouse_absolute_eq now e type s hmode hrect
  constructor
  · intro hp
    rw [h, hp]
    have hx : absAxis 100 50 400 = 511 := by decide
    have hy : absAxis 100 50 300 = 682 := by decide
    simp [hx, hy]
  · intro hp
    rw [h, hp]
    have hx : absAxis 50 50 400 = 0 := by decide
    have hy : absAxis 50 50 300 = 0 := by decide
    simp [hx, hy]

/-- Witness of C16 as amended: `absoluteController` and move events. -/
theorem absolute_first_event_witness :
    (parseLocalMouse 0 (pointerAt 100 100) EventType.MouseMove absoluteController).2
        = [{ type := CmdType.CMD_MOUSE_ABS, param1 := 511, param2 := 682,
             param3 := getHidButtonState (pointerAt 100 100).buttons, param4 := 0 }]
    ∧ (parseLocalMouse 0 (pointerAt 50 50) EventType.MouseMove absoluteController).2
        = [{ type := CmdType.CMD_MOUSE_ABS, param1 := 0, param2 := 0,
             param3 := getHidButtonState (pointerAt 50 50).buttons, param4 := 0 }] :=
  ⟨(absolute_first_event 0 (pointerAt 100 100) EventType.MouseMove absoluteController
      rfl rfl).1 rfl,
   (absolute_first_event 0 (pointerAt 50 50) EventType.MouseMove absoluteController
      rfl rfl).2 rfl⟩

/-! ## The keyboard path -/

theorem parseLocalKey_of_autorepeat (e : QKeyEvent) (isPress : Bool)
    (h : e.isAutoRepeat = true) : parseLocalKey e isPress = [] := by
  simp [parseLocalKey, h]

theorem parseLocalKeys_of_autorepeat (repeats : List (QKeyEvent × Bool))
    (h : ∀ ev ∈ repeats, ev.1.isAutoRepeat = true) : parseLocalKeys repeats = [] := by
  induction repeats with
  | nil => rfl
  | cons ev rest ih =>
    have h1 := parseLocalKey_of_autorepeat ev.1 ev.2 (h ev (List.mem_cons_self _ _))
    have h2 := ih (fun x hx => h x (List.mem_cons_of_mem _ hx))
    unfold parseLocalKeys at h2 ⊢
    simp [List.flatMap_cons, h1, h2]

/-- C17: `parseLocalKey` pushes no command for a key event flagged as
autorepeat, press or release, whatever the key and the modifiers; the event
filter pushes none for it either; and a held key (a press, any number of
autorepeat events, a release) produces exactly the commands of its press and
of its release. -/
theorem parseLocalKey_autorepeat_ignored (e press release : QKeyEvent) (isPress : Bool)
    (repeats : List (QKeyEvent × Bool))
    (hauto : e.isAutoRepeat = true)
    (hrep : ∀ ev ∈ repeats, ev.1.isAutoRepeat = true) :
    parseLocalKey e isPress = []
    ∧ (∀ (now : Int) (isWidget : Bool) (size : QSize) (event : QEvent) (s : HidController),
        event.key = e → (event.type = EventType.KeyPress ∨ event.type = EventType.KeyRelease) →
        (eventFilter now isWidget size event s).2.1 = [])
    ∧ parseLocalKeys ((press, true) :: repeats ++ [(release, false)])
        = parseLocalKey press true ++ parseLocalKey release false := by
  have h0 := fun b => parseLocalKey_of_autorepeat e b hauto
  refine ⟨h0 isPress, ?_, ?_⟩
  · intro now isWidget size event s hk ht
    by_cases h1 : s.m_currentMode = HidControlMode.MODE_NONE ∨ s.m_driver = false
    · simp [eventFilter, h1]
    · rcases ht with ht | ht <;> simp [eventFilter, h1, ht, hk, h0]
  · have hr := parseLocalKeys_of_autorepeat repeats hrep
    unfold parseLocalKeys at hr ⊢
    simp [List.flatMap_cons, List.flatMap_append, hr]

/-- Witness of C17: key `A` held through three autorepeat events. -/
theorem parseLocalKey_autorepeat_ignored_witness :
    parseLocalKey (plainKey Qt.Key_A true) true = []
    ∧ (∀ (now : Int) (isWidget : Bool) (size : QSize) (event : QEvent) (s : HidController),
        event.key = plainKey Qt.Key_A true →
        (event.type = EventType.KeyPress ∨ event.type = EventType.KeyRelease) →
        (eventFilter now isWidget size event s).2.1 = [])
    ∧ parseLocalKeys ((plainKey Qt.Key_A false, true)
          :: [(plainKey Qt.Key_A true, true), (plainKey Qt.Key_A true, false),
              (plainKey Qt.Key_A true, true)]
          ++ [(plainKey Qt.Key_A false, false)])
        = parseLocalKey (plainKey Qt.Key_A false) true
          ++ parseLocalKey (plainKey Qt.Key_A false) false :=
  parseLocalKey_autorepeat_ignored (plainKey Qt.Key_A true) (plainKey Qt.Key_A false)
    (plainKey Qt.Key_A false) true
    [(plainKey Qt.Key_A true, true), (plainKey Qt.Key_A true, false),
     (plainKey Qt.Key_A true, true)]
    rfl (by decide)

theorem qtModifiersToHid_eq (m : Nat) :
    qtModifiersToHid m
      = (if m &&& Qt.ControlModifier ≠ 0 then 1 else 0)
        + (if m &&& Qt.ShiftModifier ≠ 0 then 2 else 0)
        + (if m &&& Qt.AltModifier ≠ 0 then 4 else 0)
        + (if m &&& Qt.MetaModifier ≠ 0 then 8 else 0) := by
  simp only [qtModifiersToHid, MOD_L_CTRL, MOD_L_SHIFT, MOD_L_ALT, MOD_L_WIN]
  split_ifs <;> rfl

/-- C18: for a key event that is not autorepeat, `parseLocalKey` pushes exactly
one `CMD_KEYBOARD` command; `param1` is the modifier mask (Ctrl gives bit 0,
Shift bit 1, Alt bit 2, Meta bit 3, summed over the held modifiers, the key
playing no part) and `param2` is the table code of the key when the event is a
press of a key in the table, and `0x00` when it is a release or the key is not
in the table. -/
theorem parseLocalKey_translation (e : QKeyEvent) (isPress : Bool)
    (hauto : e.isAutoRepeat = false) :
    parseLocalKey e isPress
      = [{ type := CmdType.CMD_KEYBOARD,
           param1 := (((if e.modifiers &&& Qt.ControlModifier ≠ 0 then 1 else 0)
                      + (if e.modifiers &&& Qt.ShiftModifier ≠ 0 then 2 else 0)
                      + (if e.modifiers &&& Qt.AltModifier ≠ 0 then 4 else 0)
                      + (if e.modifiers &&& Qt.MetaModifier ≠ 0 then 8 else 0) : Nat) : Int),
           param2 := (match isPress, initKeyMap.lookup e.key with
                      | true, some code => (code : Int)
                      | _, _ => 0),
           param3 := 0, param4 := 0 }] := by
  have hm := qtModifiersToHid_eq e.modifiers
  cases isPress <;> cases hl : initKeyMap.lookup e.key <;>
    simp [parseLocalKey, hauto, hm, KeyMap.contains, KeyMap.value, hl]

/-- Witness of C18: a press of `!` (Shift held) gives modifier mask 2 and the
code `0x1E` of the key `1`. -/
theorem parseLocalKey_translation_witness :
    parseLocalKey { key := Qt.Key_Exclam, modifiers := Qt.ShiftModifier, isAutoRepeat := false }
        true
      = [{ type := CmdType.CMD_KEYBOARD,
           param1 := (((if Qt.ShiftModifier &&& Qt.ControlModifier ≠ 0 then 1 else 0)
                      + (if Qt.ShiftModifier &&& Qt.ShiftModifier ≠ 0 then 2 else 0)
                      + (if Qt.ShiftModifier &&& Qt.AltModifier ≠ 0 then 4 else 0)
                      + (if Qt.ShiftModifier &&& Qt.MetaModifier ≠ 0 then 8 else 0) : Nat) : Int),
           param2 := (match true, initKeyMap.lookup Qt.Key_Exclam with
                      | true, some code => (code : Int)
                      | _, _ => 0),
           param3 := 0, param4 := 0 }] :=
  parseLocalKey_translation
    { key := Qt.Key_Exclam, modifiers := Qt.ShiftModifier, isAutoRepeat := false } true rfl

/-- C19: in the table built by `initKeyMap` every shifted symbol key has an
entry and it is the code of its unshifted counterpart, the letter key `A + i`
has code `0x04 + i` for `i = 0 .. 25`, and every code of the table is a single
byte different from `0x00`. -/
theorem initKeyMap_dual_mapping :
    (∀ p ∈ shiftedSymbolPairs,
        (initKeyMap.lookup p.1).isSome = true ∧ initKeyMap.lookup p.1 = initKeyMap.lookup p.2)
    ∧ (∀ i : Fin 26, initKeyMap.lookup (Qt.Key_A + (i.val : Int)) = some (0x04 + i.val))
    ∧ (∀ kv ∈ initKeyMap, 0 < kv.2 ∧ kv.2 < 256) := by
  refine ⟨by decide, by decide, by decide⟩

/-! ## The event filter -/

/-- C20: with a driver present, for a key event, and for a pointer event
(press, release, move, wheel) delivered to a widget, the event filter reports
the event consumed exactly when the mode is not `MODE_NONE`; in `MODE_NONE` it
pushes no command and leaves the whole controller state unchanged. -/
theorem eventFilter_consumes_iff_mode (now : Int) (isWidget : Bool) (size : QSize)
    (event : QEvent) (s : HidController)
    (hdrv : s.m_driver = true)
    (hev : event.type = EventType.KeyPress ∨ event.type = EventType.KeyRelease
      ∨ (isWidget = true
          ∧ (event.type = EventType.MouseButtonPress
              ∨ event.type = EventType.MouseButtonRelease
              ∨ event.type = EventType.MouseMove ∨ event.type = EventType.Wheel))) :
    ((eventFilter now isWidget size event s).2.2 = true
        ↔ s.m_currentMode ≠ HidControlMode.MODE_NONE)
    ∧ (s.m_currentMode = HidControlMode.MODE_NONE →
        (eventFilter now isWidget size event s).1 = s
        ∧ (eventFilter now isWidget size event s).2.1 = []) := by
  by_cases hm : s.m_currentMode = HidControlMode.MODE_NONE
  · simp [eventFilter, hm]
  · rcases hev with h | h | ⟨hw, h⟩
    · simp [eventFilter, hm, hdrv, h]
    · simp [eventFilter, hm, hdrv, h]
    · rcases h with h | h | h | h <;> simp [eventFilter, hm, hdrv, h, hw]

/-- Witness of C20: a left press on a widget in relative mode is consumed. -/
theorem eventFilter_consumes_iff_mode_witness :
    ((eventFilter 1000 true { width := 800, height := 600 }
        { type := EventType.MouseButtonPress, mouse := leftButtonAt 100 100,
          key := plainKey 0 false } relativeController).2.2 = true
        ↔ relativeController.m_currentMode ≠ HidControlMode.MODE_NONE)
    ∧ (relativeController.m_currentMode = HidControlMode.MODE_NONE →
        (eventFilter 1000 true { width := 800, height := 600 }
          { type := EventType.MouseButtonPress, mouse := leftButtonAt 100 100,
            key := plainKey 0 false } relativeController).1 = relativeController
        ∧ (eventFilter 1000 true { width := 800, height := 600 }
          { type := EventType.MouseButtonPress, mouse := leftButtonAt 100 100,
            key := plainKey 0 false } relativeController).2.1 = []) :=
  eventFilter_consumes_iff_mode 1000 true { width := 800, height := 600 }
    { type := EventType.MouseButtonPress, mouse := leftButtonAt 100 100,
      key := plainKey 0 false } relativeController rfl (by decide)

/-! ## The display mapping -/

/-- C21, counterexample: on a freshly constructed controller (source size
1920x1080) the call `setSourceResolution(0x0, 800x600)` replaces the stored
source size by `0x0` and the stored widget size by `800x600`; only the display
rectangle is as before. -/
theorem setSourceResolution_empty_stores_sizes :
    (({ width := 0, height := 0 } : QSize).isEmpty = true)
    ∧ (setSourceResolution { width := 0, height := 0 } { width := 800, height := 600 }
        HidController.init).m_sourceSize = { width := 0, height := 0 }
    ∧ (setSourceResolution { width := 0, height := 0 } { width := 800, height := 600 }
        HidController.init).m_sourceSize ≠ HidController.init.m_sourceSize
    ∧ (setSourceResolution { width := 0, height := 0 } { width := 800, height := 600 }
        HidController.init).m_widgetSize ≠ HidController.init.m_widgetSize := by
  decide

/-- C21 as amended: a call of `setSourceResolution` in which either size is
empty leaves the display rectangle as it was; the stored source size and
widget size become the arguments, and nothing else changes. -/
theorem setSourceResolution_empty (videoSize widgetSize : QSize) (s : HidController)
    (hempty : videoSize.isEmpty = true ∨ widgetSize.isEmpty = true) :
    (setSourceResolution videoSize widgetSize s).m_displayRect = s.m_displayRect
    ∧ (setSourceResolution videoSize widgetSize s).m_sourceSize = videoSize
    ∧ (setSourceResolution videoSize widgetSize s).m_widgetSize = widgetSize
    ∧ setSourceResolution videoSize widgetSize s
        = { s with m_sourceSize := videoSize, m_widgetSize := widgetSize } := by
  have h : setSourceResolution videoSize widgetSize s
      = { s with m_sourceSize := videoSize, m_widgetSize := widgetSize } := by
    rcases hempty with h | h <;> simp [setSourceResolution, updateScaleParams, h]
  rw [h]
  exact ⟨rfl, rfl, rfl, rfl⟩

/-- Witness of C21 as amended: an empty source size on a fresh controller. -/
theorem setSourceResolution_empty_witness :
    (setSourceResolution { width := 0, height := 0 } { width := 800, height := 600 }
        HidController.init).m_displayRect = HidController.init.m_displayRect
    ∧ (setSourceResolution { width := 0, height := 0 } { width := 800, height := 600 }
        HidController.init).m_sourceSize = { width := 0, height := 0 }
    ∧ (setSourceResolution { width := 0, height := 0 } { width := 800, height := 600 }
        HidController.init).m_widgetSize = { width := 800, height := 600 }
    ∧ setSourceResolution { width := 0, height := 0 } { width := 800, height := 600 }
        HidController.init
        = { HidController.init with m_sourceSize := { width := 0, height := 0 },
                                    m_widgetSize := { width := 800, height := 600 } } :=
  setSourceResolution_empty { width := 0, height := 0 } { width := 800, height := 600 }
    HidController.init (Or.inl rfl)

/-! ## Capture negotiation -/

/-- C22, the code at the failing input: on an opened device whose every
`mmap` fails, and on one where the frame-interval request and all per-buffer
requests fail, `startCapturing` returns success and the device reports
`isCapturing() = true`, holding four buffers none of which is mapped. -/
theorem startCapturing_ignores_failed_steps :
    ((CameraDevice.init.openDevice 3).1.startCapturing mmapFailingDevice 640 480
        V4L2_PIX_FMT_YUYV 30).2 = true
    ∧ ((CameraDevice.init.openDevice 3).1.startCapturing mmapFailingDevice 640 480
        V4L2_PIX_FMT_YUYV 30).1.isCapturing = true
    ∧ ((CameraDevice.init.openDevice 3).1.startCapturing mmapFailingDevice 640 480
        V4L2_PIX_FMT_YUYV 30).1.m_buffers
        = some [{ mapped := false }, { mapped := false }, { mapped := false },
                { mapped := false }]
    ∧ ((CameraDevice.init.openDevice 3).1.startCapturing lameDevice 640 480
        V4L2_PIX_FMT_YUYV 30).2 = true
    ∧ ((CameraDevice.init.openDevice 3).1.startCapturing lameDevice 640 480
        V4L2_PIX_FMT_YUYV 30).1.isCapturing = true := by
  decide

/-! ## The encoder bitrate -/

theorem encoderBitrate_eq (w h : Int) (h0 : 0 ≤ 2 * w * h) (h1 : 2 * w * h < 2147483648) :
    encoderBitrate w h = max (2 * w * h) 400000 := by
  have hp : 2 * w * h = 2 * (w * h) := by ring
  rw [hp] at h0 h1 ⊢
  unfold encoderBitrate
  generalize w * h = p at h0 h1 ⊢
  rw [wrapInt32_of_range p (by omega) (by omega),
    wrapInt32_of_range (p * 2) (by omega) (by omega)]
  simp only
  split_ifs <;> omega

theorem newEncoder_mem_syncNetwork (w h : Int) (netOn : Bool) (p : Int) (v : VideoController)
    (e : VideoEncoder) (hmem : HwOp.newEncoder e ∈ (syncNetwork w h netOn p v).2) :
    e = { width := w, height := h, bitrate := encoderBitrate w h } := by
  cases netOn <;> cases he : v.m_encoder <;> cases hs : v.m_server <;>
    simp [syncNetwork, dropEncoder, ensureServer, dropServer, rebuildEncoder, he, hs] at hmem <;>
    (try split_ifs at hmem) <;> (try simp at hmem) <;> (try exact hmem)

theorem newEncoder_mem_syncHardwareState (dev : V4l2Device) (v : VideoController)
    (e : VideoEncoder) (hmem : HwOp.newEncoder e ∈ (syncHardwareState dev v).2) :
    e = { width := v.m_cfgWidth, height := v.m_cfgHeight,
          bitrate := encoderBitrate v.m_cfgWidth v.m_cfgHeight } := by
  unfold syncHardwareState at hmem
  by_cases hc : v.m_dirtyCamera = true
  · simp only [hc, if_true] at hmem
    by_cases hok : (v.m_camera.stopCapturing.startCapturing dev v.m_cfgWidth v.m_cfgHeight
        v.m_cfgFmt v.m_cfgFps).2 = true
    · simp only [hok, Bool.not_true, Bool.false_eq_true, if_false, List.mem_append,
        List.mem_cons, List.mem_singleton, List.not_mem_nil, or_false, false_or] at hmem
      rcases hmem with (h | h) | h
      · cases h
      · cases h
      · exact newEncoder_mem_syncNetwork _ _ _ _ _ _ h
    · simp [hok] at hmem
  · by_cases hn : v.m_dirtyNetwork = true
    · simp only [hc, hn, Bool.false_eq_true, if_false, if_true] at hmem
      exact newEncoder_mem_syncNetwork _ _ _ _ _ _ hmem
    · simp [hc, hn] at hmem

/-- C23: for a configured width `w` and height `h` with `0 <= 2*w*h < 2^31`,
the bitrate computed for a new encoder is `max(2*w*h, 400000)`, and every
encoder constructed by a reconciliation pass carries this bitrate, which is
never below 400000. -/
theorem encoder_bitrate_floor (dev : V4l2Device) (v : VideoController)
    (h0 : 0 ≤ 2 * v.m_cfgWidth * v.m_cfgHeight)
    (h1 : 2 * v.m_cfgWidth * v.m_cfgHeight < 2147483648) :
    encoderBitrate v.m_cfgWidth v.m_cfgHeight = max (2 * v.m_cfgWidth * v.m_cfgHeight) 400000
    ∧ ∀ e, HwOp.newEncoder e ∈ (syncHardwareState dev v).2 →
        e.bitrate = max (2 * v.m_cfgWidth * v.m_cfgHeight) 400000 ∧ 400000 ≤ e.bitrate := by
  have hb := encoderBitrate_eq v.m_cfgWidth v.m_cfgHeight h0 h1
  refine ⟨hb, fun e hmem => ?_⟩
  have he := newEncoder_mem_syncHardwareState dev v e hmem
  rw [he]
  simp only
  rw [hb]
  exact ⟨rfl, le_max_right _ _⟩

/-- Witness of C23: `requestedController` (640x480, bitrate 614400) whose pass
builds an encoder. -/
theorem encoder_bitrate_floor_witness :
    HwOp.newEncoder { width := 640, height := 480, bitrate := 614400 }
        ∈ (syncHardwareState exactDevice requestedController).2
    ∧ encoderBitrate requestedController.m_cfgWidth requestedController.m_cfgHeight
        = max (2 * requestedController.m_cfgWidth * requestedController.m_cfgHeight) 400000
    ∧ ∀ e, HwOp.newEncoder e ∈ (syncHardwareState exactDevice requestedController).2 →
        e.bitrate
          = max (2 * requestedController.m_cfgWidth * requestedController.m_cfgHeight) 400000
        ∧ 400000 ≤ e.bitrate :=
  ⟨by decide, encoder_bitrate_floor exactDevice requestedController (by decide) (by decide)⟩

/-! ## Reconciliation: the flags after a failed restart -/

/-- C25: a reconciliation pass that finds the capture flag set and whose
capture restart fails ends, whatever the network flag was, with both flags
clear and `m_pause` set; it consists of the stop and the failed start only, so
encoder and server are exactly as before, and the desired network
configuration is left as requested but is neither applied nor flagged again. -/
theorem failed_restart_consumes_network_flag (dev : V4l2Device) (v : VideoController)
    (hcam : v.m_dirtyCamera = true)
    (hfail : (v.m_camera.stopCapturing.startCapturing dev v.m_cfgWidth v.m_cfgHeight
              v.m_cfgFmt v.m_cfgFps).2 = false) :
    (syncHardwareState dev v).1.m_dirtyCamera = false
    ∧ (syncHardwareState dev v).1.m_dirtyNetwork = false
    ∧ (syncHardwareState dev v).1.m_pause = true
    ∧ (syncHardwareState dev v).1.m_encoder = v.m_encoder
    ∧ (syncHardwareState dev v).1.m_server = v.m_server
    ∧ (syncHardwareState dev v).1.m_cfgNetOn = v.m_cfgNetOn
    ∧ (syncHardwareState dev v).1.m_cfgPort = v.m_cfgPort
    ∧ (syncHardwareState dev v).2
        = [HwOp.cameraStop,
           HwOp.cameraStart v.m_cfgWidth v.m_cfgHeight v.m_cfgFmt v.m_cfgFps false] := by
  have hsync : syncHardwareState dev v
      = ({ v with m_dirtyCamera := false, m_dirtyNetwork := false, m_pause := true,
                  m_camera := (v.m_camera.stopCapturing.startCapturing dev v.m_cfgWidth
                    v.m_cfgHeight v.m_cfgFmt v.m_cfgFps).1 },
         [HwOp.cameraStop,
          HwOp.cameraStart v.m_cfgWidth v.m_cfgHeight v.m_cfgFmt v.m_cfgFps false]) := by
    simp [syncHardwareState, hcam, hfail]
  rw [hsync]
  exact ⟨rfl, rfl, rfl, rfl, rfl, rfl, rfl, rfl⟩

/-- Witness of C25: `doubleRequestController` (capture and network flags both
set, server for 8080 in place, port 9090 requested) on a device that refuses
the format. -/
theorem failed_restart_consumes_network_flag_witness :
    doubleRequestController.m_dirtyNetwork = true
    ∧ (syncHardwareState failingDevice doubleRequestController).1.m_dirtyCamera = false
    ∧ (syncHardwareState failingDevice doubleRequestController).1.m_dirtyNetwork = false
    ∧ (syncHardwareState failingDevice doubleRequestController).1.m_pause = true
    ∧ (syncHardwareState failingDevice doubleRequestController).1.m_encoder
        = doubleRequestController.m_encoder
    ∧ (syncHardwareState failingDevice doubleRequestController).1.m_server
        = doubleRequestController.m_server
    ∧ (syncHardwareState failingDevice doubleRequestController).1.m_cfgNetOn
        = doubleRequestController.m_cfgNetOn
    ∧ (syncHardwareState failingDevice doubleRequestController).1.m_cfgPort
        = doubleRequestController.m_cfgPort
    ∧ (syncHardwareState failingDevice doubleRequestController).2
        = [HwOp.cameraStop,
           HwOp.cameraStart doubleRequestController.m_cfgWidth
             doubleRequestController.m_cfgHeight doubleRequestController.m_cfgFmt
             doubleRequestController.m_cfgFps false] :=
  ⟨by decide,
   failed_restart_consumes_network_flag failingDevice doubleRequestController rfl (by decide)⟩

/-! ## The letterbox rectangle -/

theorem cross_div_le (sw sh W H : Int) (hsw : 1 ≤ sw) (hsh : 1 ≤ sh)
    (h : ¬ H * sw / sh ≤ W) : W * sh / sw ≤ H := by
  have h1 : W + 1 ≤ H * sw / sh := by omega
  have h2 : (W + 1) * sh ≤ H * sw := (Int.le_ediv_iff_mul_le (by omega)).1 h1
  have h3 : W * sh ≤ H * sw := by nlinarith
  calc W * sh / sw ≤ H * sw / sw := Int.ediv_le_ediv (by omega) h3
    _ = H := Int.mul_ediv_cancel H (by omega)

theorem scaled_eq (src target : QSize) (hsw : 1 ≤ src.width) (hsh : 1 ≤ src.height)
    (hW : 1 ≤ target.width) (hH : 1 ≤ target.height)
    (hWmax : target.width ≤ 2147483647) (hHmax : target.height ≤ 2147483647) :
    src.scaled target
      = (if target.height * src.width / src.height ≤ target.width then
           { width := target.height * src.width / src.height, height := target.height }
         else
           { width := target.width, height := target.width * src.height / src.width })
    ∧ 0 ≤ target.height * src.width / src.height
    ∧ 0 ≤ target.width * src.height / src.width
    ∧ (¬ target.height * src.width / src.height ≤ target.width →
        target.width * src.height / src.width ≤ target.height) := by
  have hn1 : 0 ≤ target.height * src.width := by positivity
  have hn2 : 0 ≤ target.width * src.height := by positivity
  have hd1 : 0 ≤ target.height * src.width / src.height := Int.ediv_nonneg hn1 (by omega)
  have hd2 : 0 ≤ target.width * src.height / src.width := Int.ediv_nonneg hn2 (by omega)
  have ht1 : Int.tdiv (target.height * src.width) src.height
      = target.height * src.width / src.height := Int.tdiv_eq_ediv hn1 (by omega)
  have ht2 : Int.tdiv (target.width * src.height) src.width
      = target.width * src.height / src.width := Int.tdiv_eq_ediv hn2 (by omega)
  have hcross := cross_div_le src.width src.height target.width target.height hsw hsh
  refine ⟨?_, hd1, hd2, hcross⟩
  have hw0 : ¬ (src.width = 0 ∨ src.height = 0) := by omega
  simp only [QSize.scaled, hw0, if_false, ht1, ht2]
  by_cases hfit : target.height * src.width / src.height ≤ target.width
  · simp only [hfit, if_true]
    rw [wrapInt32_of_range _ (by omega) (by omega)]
  · simp only [hfit, if_false]
    rw [wrapInt32_of_range _ (by omega) (by omega)]

/-- C24: for a non-empty source size `(sw, sh)` and a non-empty widget size
`(W, H)` (C++ `int` values), the display rectangle `(x, y, w, h)` stored by
`setSourceResolution` through `updateScaleParams` has `(w, h) = (H*sw/sh, H)`
when `H*sw/sh <= W` and `(W, W*sh/sw)` otherwise, and satisfies `w <= W`,
`h <= H`, `w = W` or `h = H`, `x = (W - w)/2 >= 0`, `y = (H - h)/2 >= 0`,
`x + w <= W` and `y + h <= H`. -/
theorem letterbox_rect (src widget : QSize) (s : HidController)
    (hsw : 1 ≤ src.width) (hsh : 1 ≤ src.height)
    (hW : 1 ≤ widget.width) (hH : 1 ≤ widget.height)
    (hWmax : widget.width ≤ 2147483647) (hHmax : widget.height ≤ 2147483647) :
    ((setSourceResolution src widget s).m_displayRect.width,
      (setSourceResolution src widget s).m_displayRect.height)
        = (if widget.height * src.width / src.height ≤ widget.width then
             (widget.height * src.width / src.height, widget.height)
           else (widget.width, widget.width * src.height / src.width))
    ∧ (setSourceResolution src widget s).m_displayRect.width ≤ widget.width
    ∧ (setSourceResolution src widget s).m_displayRect.height ≤ widget.height
    ∧ ((setSourceResolution src widget s).m_displayRect.width = widget.width
        ∨ (setSourceResolution src widget s).m_displayRect.height = widget.height)
    ∧ (setSourceResolution src widget s).m_displayRect.x
        = (widget.width - (setSourceResolution src widget s).m_displayRect.width) / 2
    ∧ 0 ≤ (setSourceResolution src widget s).m_displayRect.x
    ∧ (setSourceResolution src widget s).m_displayRect.y
        = (widget.height - (setSourceResolution src widget s).m_displayRect.height) / 2
    ∧ 0 ≤ (setSourceResolution src widget s).m_displayRect.y
    ∧ (setSourceResolution src widget s).m_displayRect.x
        + (setSourceResolution src widget s).m_displayRect.width ≤ widget.width
    ∧ (setSourceResolution src widget s).m_displayRect.y
        + (setSourceResolution src widget s).m_displayRect.height ≤ widget.height := by
  obtain ⟨hsc, hd1, hd2, hcross⟩ := scaled_eq src widget hsw hsh hW hH hWmax hHmax
  have he1 : src.isEmpty = false := by
    simp only [QSize.isEmpty, Bool.or_eq_false_iff, decide_eq_false_iff_not]; omega
  have he2 : widget.isEmpty = false := by
    simp only [QSize.isEmpty, Bool.or_eq_false_iff, decide_eq_false_iff_not]; omega
  have hrect : (setSourceResolution src widget s).m_displayRect
      = { x := wrapInt32 (Int.tdiv (wrapInt32 (widget.width - (src.scaled widget).width)) 2),
          y := wrapInt32 (Int.tdiv (wrapInt32 (widget.height - (src.scaled widget).height)) 2),
          width := (src.scaled widget).width, height := (src.scaled widget).height } := by
    simp [setSourceResolution, updateScaleParams, he1, he2]
  rw [hrect]
  simp only
  have axis : ∀ total part : Int, 0 ≤ part → part ≤ total → total ≤ 2147483647 →
      wrapInt32 (Int.tdiv (wrapInt32 (total - part)) 2) = (total - part) / 2
      ∧ 0 ≤ (total - part) / 2 ∧ (total - part) / 2 + part ≤ total := by
    intro total part h0 h1 h2
    rw [wrapInt32_of_range (total - part) (by omega) (by omega)]
    rw [Int.tdiv_eq_ediv (by omega) (by decide)]
    rw [wrapInt32_of_range _ (by omega) (by omega)]
    omega
  have hfacts : ((src.scaled widget).width, (src.scaled widget).height)
        = (if widget.height * src.width / src.height ≤ widget.width then
             (widget.height * src.width / src.height, widget.height)
           else (widget.width, widget.width * src.height / src.width))
      ∧ 0 ≤ (src.scaled widget).width ∧ (src.scaled widget).width ≤ widget.width
      ∧ 0 ≤ (src.scaled widget).height ∧ (src.scaled widget).height ≤ widget.height
      ∧ ((src.scaled widget).width = widget.width
          ∨ (src.scaled widget).height = widget.height) := by
    by_cases hfit : widget.height * src.width / src.height ≤ widget.width
    · rw [if_pos hfit] at hsc
      rw [hsc, if_pos hfit]
      exact ⟨rfl, hd1, hfit, le_trans (by decide) hH, le_rfl, Or.inr rfl⟩
    · rw [if_neg hfit] at hsc
      rw [hsc, if_neg hfit]
      exact ⟨rfl, le_trans (by decide) hW, le_rfl, hd2, hcross hfit, Or.inl rfl⟩
  obtain ⟨hpair, hp0, hpW, hq0, hqH, hor⟩ := hfacts
  obtain ⟨ax, ax0, ax1⟩ := axis widget.width (src.scaled widget).width hp0 hpW hWmax
  obtain ⟨ay, ay0, ay1⟩ := axis widget.height (src.scaled widget).height hq0 hqH hHmax
  rw [ax, ay]
  exact ⟨hpair, hpW, hqH, hor, rfl, ax0, rfl, ay0, ax1, ay1⟩

/-- Witness of C24: a 1920x1080 source in an 800x600 widget gives the
rectangle `(0, 75, 800, 450)`. -/
theorem letterbox_rect_witness :
    (setSourceResolution { width := 1920, height := 1080 } { width := 800, height := 600 }
        HidController.init).m_displayRect = { x := 0, y := 75, width := 800, height := 450 }
    ∧ (setSourceResolution { width := 1920, height := 1080 } { width := 800, height := 600 }
        HidController.init).m_displayRect.width ≤ 800
    ∧ (setSourceResolution { width := 1920, height := 1080 } { width := 800, height := 600 }
        HidController.init).m_displayRect.height ≤ 600 :=
  ⟨by decide,
   (letterbox_rect { width := 1920, height := 1080 } { width := 800, height := 600 }
      HidController.init (by decide) (by decide) (by decide) (by decide) (by decide)
      (by decide)).2.1,
   (letterbox_rect { width := 1920, height := 1080 } { width := 800, height := 600 }
      HidController.init (by decide) (by decide) (by decide) (by decide) (by decide)
      (by decide)).2.2.1⟩

end QtPadsKvm
